import Mathlib

/-!
# WindowUiaProvider: the root UI Automation node of the console window

A shallow embedding of `src/host/windowUiaProvider.cpp`.

* Every interface method is a pure function.  It receives the object state
  (`WindowUiaProvider`), the answers of the platform during the call (`Env`),
  the arguments, and the contents the output location held before the call; it
  returns the result code, the contents of the output location afterwards and
  the object state afterwards (`Ret`).
* Machine integers are `Nat`/`Int` with explicit wrap-around: the reference
  count is a 32-bit counter, `RECT` coordinates are 32-bit signed.
* Pointers are values of `Pointer`; the free store holding the leaf providers
  is a list, and an address is an index into it.
-/

namespace WindowUia

/-! ## Platform types and constants (Windows SDK headers) -/

abbrev HRESULT := Int
abbrev HWND := Nat
abbrev ULONG := Nat
abbrev GUID := Nat
abbrev PROPERTYID := Int
abbrev PATTERNID := Int
abbrev CONTROLTYPEID := Int
abbrev ProviderOptions := Int
abbrev VARTYPE := Nat

def S_OK : HRESULT := 0
def E_NOINTERFACE : HRESULT := 0x80004002 - 2 ^ 32
def E_OUTOFMEMORY : HRESULT := 0x8007000E - 2 ^ 32
def E_INVALIDARG : HRESULT := 0x80070057 - 2 ^ 32
def UIA_E_ELEMENTNOTAVAILABLE : HRESULT := 0x80040201 - 2 ^ 32

/-- The `FAILED` test of winerror.h: the severity bit is set, the code is negative. -/
def FAILED (hr : HRESULT) : Bool := decide (hr < 0)

/-- The null window handle. -/
def nullHWND : HWND := 0

def IID_IUnknown : GUID := 0x0000000000000000C000000000000046
def IID_IRawElementProviderSimple : GUID := 0xd6dd68d186fd433286669abedea2d24c
def IID_IRawElementProviderFragment : GUID := 0xf7063da88359439c9297bbc5299a7d87
def IID_IRawElementProviderFragmentRoot : GUID := 0x620ce2a5ab8f40a986cbde3c75599b58

def UIA_ControlTypePropertyId : PROPERTYID := 30003
def UIA_HasKeyboardFocusPropertyId : PROPERTYID := 30008
def UIA_IsKeyboardFocusablePropertyId : PROPERTYID := 30009
def UIA_AutomationIdPropertyId : PROPERTYID := 30011
def UIA_IsControlElementPropertyId : PROPERTYID := 30016
def UIA_ProviderDescriptionPropertyId : PROPERTYID := 30107
def UIA_WindowControlTypeId : CONTROLTYPEID := 50032

def ProviderOptions_ServerSideProvider : ProviderOptions := 2

def VT_EMPTY : VARTYPE := 0
def VT_I4 : VARTYPE := 3
def VT_BSTR : VARTYPE := 8
def VT_BOOL : VARTYPE := 11
def VARIANT_TRUE : Int := -1
def VARIANT_FALSE : Int := 0

/-- The enumeration NavigateDirection of UIAutomationCore.h. -/
inductive NavigateDirection where
  | Parent
  | NextSibling
  | PreviousSibling
  | FirstChild
  | LastChild
  deriving DecidableEq

/-- Width of the machine word behind `LONG`, `ULONG` and the reference count. -/
def wordSize : Nat := 2 ^ 32

/-- A mathematical integer reduced to the `LONG` (32-bit two's complement) it is stored as. -/
def wrapLONG (x : Int) : Int := (x + 2 ^ 31) % 2 ^ 32 - 2 ^ 31

/-- The value lies in the range of a `LONG`. -/
def inLONG (x : Int) : Prop := -(2 ^ 31) ≤ x ∧ x < 2 ^ 31

instance (x : Int) : Decidable (inLONG x) := by
  unfold inLONG; exact inferInstance

/-- The result of `InterlockedIncrement` on a 32-bit counter. -/
def InterlockedIncrement (n : Nat) : Nat := (n + 1) % wordSize

/-- The result of `InterlockedDecrement` on a 32-bit counter. -/
def InterlockedDecrement (n : Nat) : Nat := (n + (wordSize - 1)) % wordSize

/-! ## Collaborators -/

structure RECT where
  left : Int
  top : Int
  right : Int
  bottom : Int
  deriving DecidableEq

/-- The structure UiaRect.  Its fields are doubles; every value stored by this
file is a `LONG` converted to double, which is exact, so the field holds the
integer itself. -/
structure UiaRect where
  left : Int
  top : Int
  width : Int
  height : Int
  deriving DecidableEq

/-- The host window as the provider reads it, one field per accessor of `Window`
(window.hpp): `GetWindowHandle()`, `GetWindowRect()`, `GetScreenInfo()` (the
address of the screen-buffer state). -/
structure Window where
  GetWindowHandle : HWND
  GetWindowRect : RECT
  GetScreenInfo : Nat
  deriving DecidableEq

/-- The leaf provider, as the constructor call
`new ScreenInfoUiaProvider(_pWindow, pScreenInfo)` builds it: the object is
identified by the two constructor arguments. -/
structure ScreenInfoUiaProvider where
  pWindow : Window
  pScreenInfo : Nat
  deriving DecidableEq

/-- The three interface sub-objects of the root a pointer to it can designate. -/
inductive Facet where
  | IRawElementProviderSimple
  | IRawElementProviderFragment
  | IRawElementProviderFragmentRoot
  deriving DecidableEq

/-- A pointer value as it can sit in an output location. -/
inductive Pointer where
  | null
  | this (f : Facet)
  | leaf (addr : Nat)
  | foreign (a : Nat)
  deriving DecidableEq

/-- The payload of a VARIANT: the member of the union written last. -/
inductive Payload where
  | unset
  | lVal (v : Int)
  | bstrVal (s : Option String)
  | boolVal (v : Int)
  deriving DecidableEq

structure VARIANT where
  vt : VARTYPE
  val : Payload
  deriving DecidableEq

/-- The free store of leaf providers: the object at address `i` is element `i`. -/
abbrev Heap := List ScreenInfoUiaProvider

/-- What the platform answers during one call. -/
structure Env where
  IsWindow : HWND → Bool
  UiaHostProviderFromHwnd : HWND → Pointer → HRESULT × Pointer
  sysAllocOk : Bool
  newOk : Bool

/-- The platform call `SysAllocString`: a fresh copy of the string, or NULL when
the allocation fails. -/
def SysAllocString (env : Env) (s : String) : Option String :=
  if env.sysAllocOk then some s else none

/-- The expression `new ScreenInfoUiaProvider(...)`: the object is placed at the
next free address; a failed allocation yields the null pointer (the case the
callers test with RETURN_IF_NULL_ALLOC). -/
def newScreenInfoUiaProvider (env : Env) (heap : Heap) (obj : ScreenInfoUiaProvider) :
    Pointer × Heap :=
  if env.newOk then (Pointer.leaf heap.length, heap ++ [obj]) else (Pointer.null, heap)

/-! ## The root provider -/

/-- The data members of the class: `_pWindow` (`none` is nullptr) and `_refCount`. -/
structure WindowUiaProvider where
  _pWindow : Option Window
  _refCount : Nat
  deriving DecidableEq

/-- What a call leaves behind: result code, output location, object state. -/
structure Ret (α : Type) where
  hr : HRESULT
  out : α
  self : WindowUiaProvider

/-- The constructor: stores the window, reference count 1. -/
def WindowUiaProvider.new (pWindow : Option Window) : WindowUiaProvider :=
  { _pWindow := pWindow, _refCount := 1 }

def AddRef (self : WindowUiaProvider) : ULONG × WindowUiaProvider :=
  let val := InterlockedIncrement self._refCount
  (val, { self with _refCount := val })

/-- The method Release: the second component is `none` once `delete this` has run. -/
def Release (self : WindowUiaProvider) : ULONG × Option WindowUiaProvider :=
  let val := InterlockedDecrement self._refCount
  if val = 0 then (val, none) else (val, some { self with _refCount := val })

def QueryInterface (self : WindowUiaProvider) (riid : GUID) (ppInterface : Pointer) :
    Ret Pointer :=
  if riid = IID_IUnknown then
    { hr := S_OK, out := Pointer.this Facet.IRawElementProviderSimple, self := (AddRef self).2 }
  else if riid = IID_IRawElementProviderSimple then
    { hr := S_OK, out := Pointer.this Facet.IRawElementProviderSimple, self := (AddRef self).2 }
  else if riid = IID_IRawElementProviderFragment then
    { hr := S_OK, out := Pointer.this Facet.IRawElementProviderFragment, self := (AddRef self).2 }
  else if riid = IID_IRawElementProviderFragmentRoot then
    { hr := S_OK, out := Pointer.this Facet.IRawElementProviderFragmentRoot,
      self := (AddRef self).2 }
  else
    { hr := E_NOINTERFACE, out := Pointer.null, self := self }

def _GetWindowHandle (self : WindowUiaProvider) : HWND :=
  match self._pWindow with
  | some w => w.GetWindowHandle
  | none => nullHWND

def _EnsureValidHwnd (env : Env) (self : WindowUiaProvider) : HRESULT :=
  let hwnd := _GetWindowHandle self
  if env.IsWindow hwnd = false then UIA_E_ELEMENTNOTAVAILABLE else S_OK

def _GetScreenInfoProvider (env : Env) (self : WindowUiaProvider) (heap : Heap) :
    Pointer × Heap :=
  match self._pWindow with
  | some w =>
    let pScreenInfo := w.GetScreenInfo
    newScreenInfoUiaProvider env heap { pWindow := w, pScreenInfo := pScreenInfo }
  | none => (Pointer.null, heap)

def get_ProviderOptions (env : Env) (self : WindowUiaProvider) (pRetVal : ProviderOptions) :
    Ret ProviderOptions :=
  let hr := _EnsureValidHwnd env self
  if FAILED hr then { hr := hr, out := pRetVal, self := self }
  else { hr := S_OK, out := ProviderOptions_ServerSideProvider, self := self }

def GetPatternProvider (env : Env) (self : WindowUiaProvider) (patternId : PATTERNID)
    (ppRetVal : Pointer) : Ret Pointer :=
  let _unreferenced := patternId
  let hr := _EnsureValidHwnd env self
  if FAILED hr then { hr := hr, out := ppRetVal, self := self }
  else { hr := S_OK, out := Pointer.null, self := self }

def GetPropertyValue (env : Env) (self : WindowUiaProvider) (propertyId : PROPERTYID)
    (pRetVal : VARIANT) : Ret VARIANT :=
  let hr := _EnsureValidHwnd env self
  if FAILED hr then { hr := hr, out := pRetVal, self := self }
  else
    let v0 : VARIANT := { pRetVal with vt := VT_EMPTY }
    if propertyId = UIA_ControlTypePropertyId then
      { hr := S_OK, out := { vt := VT_I4, val := Payload.lVal UIA_WindowControlTypeId },
        self := self }
    else if propertyId = UIA_AutomationIdPropertyId then
      let bstr := SysAllocString env "Console Window"
      let v1 : VARIANT := { v0 with val := Payload.bstrVal bstr }
      if bstr ≠ none then { hr := S_OK, out := { v1 with vt := VT_BSTR }, self := self }
      else { hr := S_OK, out := v1, self := self }
    else if propertyId = UIA_IsControlElementPropertyId then
      { hr := S_OK, out := { vt := VT_BOOL, val := Payload.boolVal VARIANT_TRUE }, self := self }
    else if propertyId = UIA_IsKeyboardFocusablePropertyId then
      { hr := S_OK, out := { vt := VT_BOOL, val := Payload.boolVal VARIANT_FALSE }, self := self }
    else if propertyId = UIA_HasKeyboardFocusPropertyId then
      { hr := S_OK, out := { vt := VT_BOOL, val := Payload.boolVal VARIANT_FALSE }, self := self }
    else if propertyId = UIA_ProviderDescriptionPropertyId then
      let bstr := SysAllocString env "Microsoft Console Host Window"
      let v1 : VARIANT := { v0 with val := Payload.bstrVal bstr }
      if bstr ≠ none then { hr := S_OK, out := { v1 with vt := VT_BSTR }, self := self }
      else { hr := S_OK, out := v1, self := self }
    else
      { hr := S_OK, out := v0, self := self }

def get_HostRawElementProvider (env : Env) (self : WindowUiaProvider) (ppRetVal : Pointer) :
    Ret Pointer :=
  match self._pWindow with
  | none => { hr := UIA_E_ELEMENTNOTAVAILABLE, out := ppRetVal, self := self }
  | some w =>
    let hwnd := w.GetWindowHandle
    if hwnd = nullHWND then { hr := UIA_E_ELEMENTNOTAVAILABLE, out := ppRetVal, self := self }
    else
      let r := env.UiaHostProviderFromHwnd hwnd ppRetVal
      { hr := r.1, out := r.2, self := self }

def Navigate (env : Env) (self : WindowUiaProvider) (heap : Heap)
    (direction : NavigateDirection) (ppRetVal : Pointer) : Ret Pointer × Heap :=
  let hr := _EnsureValidHwnd env self
  if FAILED hr then ({ hr := hr, out := ppRetVal, self := self }, heap)
  else if direction = NavigateDirection.FirstChild ∨ direction = NavigateDirection.LastChild then
    let r := _GetScreenInfoProvider env self heap
    if r.1 = Pointer.null then ({ hr := E_OUTOFMEMORY, out := r.1, self := self }, r.2)
    else ({ hr := S_OK, out := r.1, self := self }, r.2)
  else ({ hr := S_OK, out := Pointer.null, self := self }, heap)

def GetRuntimeId (env : Env) (self : WindowUiaProvider) (ppRetVal : Pointer) : Ret Pointer :=
  let hr := _EnsureValidHwnd env self
  if FAILED hr then { hr := hr, out := ppRetVal, self := self }
  else { hr := S_OK, out := Pointer.null, self := self }

def get_BoundingRectangle (env : Env) (self : WindowUiaProvider) (pRetVal : UiaRect) :
    Ret UiaRect :=
  let hr := _EnsureValidHwnd env self
  if FAILED hr then { hr := hr, out := pRetVal, self := self }
  else
    match self._pWindow with
    | none => { hr := UIA_E_ELEMENTNOTAVAILABLE, out := pRetVal, self := self }
    | some w =>
      let rc := w.GetWindowRect
      { hr := S_OK,
        out := { left := rc.left, top := rc.top,
                 width := wrapLONG (rc.right - rc.left),
                 height := wrapLONG (rc.bottom - rc.top) },
        self := self }

def GetEmbeddedFragmentRoots (env : Env) (self : WindowUiaProvider) (ppRetVal : Pointer) :
    Ret Pointer :=
  let hr := _EnsureValidHwnd env self
  if FAILED hr then { hr := hr, out := ppRetVal, self := self }
  else { hr := S_OK, out := Pointer.null, self := self }

def SetFocus (env : Env) (self : WindowUiaProvider) : Ret Unit :=
  let hr := _EnsureValidHwnd env self
  if FAILED hr then { hr := hr, out := (), self := self }
  else { hr := S_OK, out := (), self := self }

def get_FragmentRoot (env : Env) (self : WindowUiaProvider) (ppRetVal : Pointer) :
    Ret Pointer :=
  let hr := _EnsureValidHwnd env self
  if FAILED hr then { hr := hr, out := ppRetVal, self := self }
  else
    { hr := S_OK, out := Pointer.this Facet.IRawElementProviderFragmentRoot,
      self := (AddRef self).2 }

def ElementProviderFromPoint (env : Env) (self : WindowUiaProvider) (heap : Heap)
    (x y : Float) (ppRetVal : Pointer) : Ret Pointer × Heap :=
  let _unreferenced := (x, y)
  let hr := _EnsureValidHwnd env self
  if FAILED hr then ({ hr := hr, out := ppRetVal, self := self }, heap)
  else
    let r := _GetScreenInfoProvider env self heap
    if r.1 = Pointer.null then ({ hr := E_OUTOFMEMORY, out := r.1, self := self }, r.2)
    else ({ hr := S_OK, out := r.1, self := self }, r.2)

def GetFocus (env : Env) (self : WindowUiaProvider) (ppRetVal : Pointer) : Ret Pointer :=
  let hr := _EnsureValidHwnd env self
  if FAILED hr then { hr := hr, out := ppRetVal, self := self }
  else { hr := S_OK, out := Pointer.null, self := self }

/-! ## Concrete inputs used by the examples -/

/-- A window with handle 5, rectangle (10, 20)-(110, 70) and screen state at address 9. -/
def sampleWindow : Window :=
  { GetWindowHandle := 5,
    GetWindowRect := { left := 10, top := 20, right := 110, bottom := 70 },
    GetScreenInfo := 9 }

/-- A window collapsed to the single point (40, 60), as when minimized. -/
def minimizedWindow : Window :=
  { GetWindowHandle := 5,
    GetWindowRect := { left := 40, top := 60, right := 40, bottom := 60 },
    GetScreenInfo := 9 }

/-- A root attached to `sampleWindow`, as the constructor leaves it. -/
def sampleRoot : WindowUiaProvider := WindowUiaProvider.new (some sampleWindow)

/-- A root whose window pointer is null. -/
def orphanRoot : WindowUiaProvider := WindowUiaProvider.new none

/-- A platform on which handle 5 is a live window and every allocation succeeds. -/
def liveEnv : Env :=
  { IsWindow := fun h => decide (h = 5),
    UiaHostProviderFromHwnd := fun h _ => if h = 5 then (S_OK, Pointer.foreign 77)
                                          else (E_INVALIDARG, Pointer.null),
    sysAllocOk := true,
    newOk := true }

/-- The platform of `liveEnv` once memory is exhausted. -/
def liveEnvNoMemory : Env := { liveEnv with sysAllocOk := false, newOk := false }

/-- A platform after the window was destroyed: no handle is a window, and the
host-provider lookup rejects the handle as an invalid argument. -/
def deadEnv : Env :=
  { IsWindow := fun _ => false,
    UiaHostProviderFromHwnd := fun _ p => (E_INVALIDARG, p),
    sysAllocOk := true,
    newOk := true }

/-! ## Predicates used in the statements -/

/-- The interface id is one of the four the root answers to. -/
def supportedFacet (riid : GUID) : Prop :=
  riid = IID_IUnknown ∨ riid = IID_IRawElementProviderSimple ∨
  riid = IID_IRawElementProviderFragment ∨ riid = IID_IRawElementProviderFragmentRoot

instance (riid : GUID) : Decidable (supportedFacet riid) := by
  unfold supportedFacet; exact inferInstance

/-- The pointer designates the root object through one of its interfaces. -/
def Pointer.denotesRoot (p : Pointer) : Prop := ∃ f, p = Pointer.this f

/-! ## Client sessions: sequences of reference-counting calls -/

/-- One call a client makes on the root: the four that touch the reference
count.  get_FragmentRoot carries the platform as it is at the time of the call. -/
inductive Call where
  | AddRef
  | QueryInterface (riid : GUID)
  | get_FragmentRoot (env : Env)
  | Release

/-- The record of a client session: the object (`none` once it deleted itself), the number
of acquiring calls that succeeded so far (AddRef, QueryInterface and
get_FragmentRoot returning S_OK) and the number of Release calls so far. -/
structure History where
  obj : Option WindowUiaProvider
  acquired : Nat
  released : Nat

/-- The session right after the constructor ran. -/
def History.start (pWindow : Option Window) : History :=
  { obj := some (WindowUiaProvider.new pWindow), acquired := 0, released := 0 }

/-- The next call of the session.  Calls are made on the existing object only,
so a session whose object is gone does not move. -/
def History.step (h : History) (c : Call) : History :=
  match h.obj with
  | none => h
  | some self =>
    match c with
    | Call.AddRef =>
      { obj := some (AddRef self).2, acquired := h.acquired + 1, released := h.released }
    | Call.QueryInterface riid =>
      { obj := some (QueryInterface self riid Pointer.null).self,
        acquired := h.acquired + (if (QueryInterface self riid Pointer.null).hr = S_OK
                                  then 1 else 0),
        released := h.released }
    | Call.get_FragmentRoot env =>
      { obj := some (get_FragmentRoot env self Pointer.null).self,
        acquired := h.acquired + (if (get_FragmentRoot env self Pointer.null).hr = S_OK
                                  then 1 else 0),
        released := h.released }
    | Call.Release =>
      { obj := (Release self).2, acquired := h.acquired, released := h.released + 1 }

/-- A whole sequence of calls, first to last. -/
def History.run (h : History) (cs : List Call) : History := cs.foldl History.step h

/-- The bookkeeping that holds as long as the counter has not wrapped: the
count is the number of references outstanding, and an object that is gone has
had every reference released. -/
def History.balanced (h : History) : Prop :=
  match h.obj with
  | some self => self._refCount + h.released = h.acquired + 1 ∧ 1 ≤ self._refCount
  | none => h.released = h.acquired + 1

/-- The counter has room for the references outstanding: 1 plus the acquiring
calls minus the Release calls is below 2^32. -/
def History.inRange (h : History) : Prop := h.acquired + 1 < wordSize + h.released

instance (h : History) : Decidable h.inRange := by
  unfold History.inRange; exact inferInstance

/-- The window has no handle: the window pointer is null or the handle it reports is null. -/
def noHandle (self : WindowUiaProvider) : Prop :=
  self._pWindow = none ∨ _GetWindowHandle self = nullHWND

instance (self : WindowUiaProvider) : Decidable (noHandle self) := by
  unfold noHandle; exact inferInstance

/-- The property id is one of the six GetPropertyValue answers to. -/
def recognisedProperty (id : PROPERTYID) : Prop :=
  id = UIA_ControlTypePropertyId ∨ id = UIA_AutomationIdPropertyId ∨
  id = UIA_IsControlElementPropertyId ∨ id = UIA_IsKeyboardFocusablePropertyId ∨
  id = UIA_HasKeyboardFocusPropertyId ∨ id = UIA_ProviderDescriptionPropertyId

instance (id : PROPERTYID) : Decidable (recognisedProperty id) := by
  unfold recognisedProperty; exact inferInstance

/-- The property id is one of the two whose value is a string. -/
def stringValuedProperty (id : PROPERTYID) : Prop :=
  id = UIA_AutomationIdPropertyId ∨ id = UIA_ProviderDescriptionPropertyId

instance (id : PROPERTYID) : Decidable (stringValuedProperty id) := by
  unfold stringValuedProperty; exact inferInstance

/-! ## Basic facts -/

theorem failed_elementNotAvailable : FAILED UIA_E_ELEMENTNOTAVAILABLE = true := by decide

theorem failed_ok : FAILED S_OK = false := by decide

theorem ensureValidHwnd_dead (env : Env) (self : WindowUiaProvider)
    (h : env.IsWindow (_GetWindowHandle self) = false) :
    _EnsureValidHwnd env self = UIA_E_ELEMENTNOTAVAILABLE := by
  simp [_EnsureValidHwnd, h]

theorem ensureValidHwnd_live (env : Env) (self : WindowUiaProvider)
    (h : env.IsWindow (_GetWindowHandle self) = true) :
    _EnsureValidHwnd env self = S_OK := by
  simp [_EnsureValidHwnd, h]

/-! ## C1: the validity gate -/

/-- C1 (amended): when `IsWindow` is false for the window handle, each of
get_ProviderOptions, GetPatternProvider, GetPropertyValue, Navigate,
GetRuntimeId, get_BoundingRectangle, GetEmbeddedFragmentRoots, SetFocus,
get_FragmentRoot, ElementProviderFromPoint and GetFocus returns
element-not-available, for every argument.  get_HostRawElementProvider does
not consult `IsWindow`: whether or not the handle is a live window, it returns
element-not-available when the window pointer or the handle is null, and
otherwise the code of the platform lookup. -/
theorem C1_gate_closed (env : Env) (self : WindowUiaProvider) (heap : Heap) :
    (env.IsWindow (_GetWindowHandle self) = false →
      (∀ o, (get_ProviderOptions env self o).hr = UIA_E_ELEMENTNOTAVAILABLE) ∧
      (∀ id o, (GetPatternProvider env self id o).hr = UIA_E_ELEMENTNOTAVAILABLE) ∧
      (∀ id o, (GetPropertyValue env self id o).hr = UIA_E_ELEMENTNOTAVAILABLE) ∧
      (∀ d o, (Navigate env self heap d o).1.hr = UIA_E_ELEMENTNOTAVAILABLE) ∧
      (∀ o, (GetRuntimeId env self o).hr = UIA_E_ELEMENTNOTAVAILABLE) ∧
      (∀ o, (get_BoundingRectangle env self o).hr = UIA_E_ELEMENTNOTAVAILABLE) ∧
      (∀ o, (GetEmbeddedFragmentRoots env self o).hr = UIA_E_ELEMENTNOTAVAILABLE) ∧
      (SetFocus env self).hr = UIA_E_ELEMENTNOTAVAILABLE ∧
      (∀ o, (get_FragmentRoot env self o).hr = UIA_E_ELEMENTNOTAVAILABLE) ∧
      (∀ x y o, (ElementProviderFromPoint env self heap x y o).1.hr
          = UIA_E_ELEMENTNOTAVAILABLE) ∧
      (∀ o, (GetFocus env self o).hr = UIA_E_ELEMENTNOTAVAILABLE)) ∧
    (∀ o, self._pWindow = none ∨ _GetWindowHandle self = nullHWND →
        (get_HostRawElementProvider env self o).hr = UIA_E_ELEMENTNOTAVAILABLE) ∧
    (∀ o w, self._pWindow = some w → w.GetWindowHandle ≠ nullHWND →
        (get_HostRawElementProvider env self o).hr
          = (env.UiaHostProviderFromHwnd w.GetWindowHandle o).1) := by
  refine ⟨?_, ?_, ?_⟩
  · intro h
    have hg := ensureValidHwnd_dead env self h
    have hf := failed_elementNotAvailable
    refine ⟨?_, ?_, ?_, ?_, ?_, ?_, ?_, ?_, ?_, ?_, ?_⟩
    · intro o; simp [get_ProviderOptions, hg, hf]
    · intro id o; simp [GetPatternProvider, hg, hf]
    · intro id o; simp [GetPropertyValue, hg, hf]
    · intro d o; simp [Navigate, hg, hf]
    · intro o; simp [GetRuntimeId, hg, hf]
    · intro o; simp [get_BoundingRectangle, hg, hf]
    · intro o; simp [GetEmbeddedFragmentRoots, hg, hf]
    · simp [SetFocus, hg, hf]
    · intro o; simp [get_FragmentRoot, hg, hf]
    · intro x y o; simp [ElementProviderFromPoint, hg, hf]
    · intro o; simp [GetFocus, hg, hf]
  · intro o hnull
    unfold get_HostRawElementProvider
    cases hw : self._pWindow with
    | none => rfl
    | some w =>
      have h0 : w.GetWindowHandle = nullHWND := by
        rcases hnull with h1 | h1
        · rw [hw] at h1; cases h1
        · simpa [_GetWindowHandle, hw] using h1
      simp [h0]
  · intro o w hw hne
    simp [get_HostRawElementProvider, hw, hne]

/-- C1, witness: the orphan root on the dead platform; the sample root, whose
handle is live, still receives the code of the platform lookup. -/
theorem C1_gate_closed_witness :
    deadEnv.IsWindow (_GetWindowHandle orphanRoot) = false ∧
    (∀ o, (get_ProviderOptions deadEnv orphanRoot o).hr = UIA_E_ELEMENTNOTAVAILABLE) ∧
    (∀ o, (get_HostRawElementProvider deadEnv orphanRoot o).hr
        = UIA_E_ELEMENTNOTAVAILABLE) ∧
    (get_HostRawElementProvider liveEnv sampleRoot Pointer.null).hr
        = (liveEnv.UiaHostProviderFromHwnd 5 Pointer.null).1 :=
  have h := C1_gate_closed deadEnv orphanRoot []
  ⟨rfl, (h.1 rfl).1, fun o => h.2.1 o (Or.inl rfl),
   (C1_gate_closed liveEnv sampleRoot []).2.2 Pointer.null sampleWindow rfl (by decide)⟩

/-- C1, counterexample: the window handle 5 is not a live window, yet
get_HostRawElementProvider hands back the platform code (invalid argument)
instead of element-not-available. -/
theorem C1_counterexample :
    deadEnv.IsWindow (_GetWindowHandle sampleRoot) = false ∧
    (get_HostRawElementProvider deadEnv sampleRoot Pointer.null).hr = E_INVALIDARG ∧
    (get_HostRawElementProvider deadEnv sampleRoot Pointer.null).hr
      ≠ UIA_E_ELEMENTNOTAVAILABLE := by
  decide

/-! ## C2: QueryInterface -/

theorem interlockedIncrement_of_lt (n : Nat) (h : n + 1 < wordSize) :
    InterlockedIncrement n = n + 1 := by
  unfold InterlockedIncrement
  exact Nat.mod_eq_of_lt h

theorem addRef_refCount (self : WindowUiaProvider) :
    (AddRef self).2._refCount = InterlockedIncrement self._refCount := rfl

theorem addRef_pWindow (self : WindowUiaProvider) :
    (AddRef self).2._pWindow = self._pWindow := rfl

theorem addRef_of_lt (pWindow : Option Window) (n : Nat) (hn : n + 1 < wordSize) :
    (AddRef ⟨pWindow, n⟩).2 = ⟨pWindow, n + 1⟩ := by
  have hinc := interlockedIncrement_of_lt n hn
  unfold AddRef
  simp only [hinc]

/-- C2 (amended): for every interface id and every reference count n,
QueryInterface on a supported id (IUnknown, IRawElementProviderSimple,
IRawElementProviderFragment, IRawElementProviderFragmentRoot) returns success
and a non-null pointer to the root object itself, and leaves the count at
n + 1 when n is below 2^32 - 1; on every other id it returns
no-such-interface, stores null and leaves the object, count included, as it
was. -/
theorem C2_QueryInterface (pWindow : Option Window) (n : Nat) (riid : GUID)
    (prior : Pointer) :
    (supportedFacet riid →
      (QueryInterface ⟨pWindow, n⟩ riid prior).hr = S_OK ∧
      (QueryInterface ⟨pWindow, n⟩ riid prior).out ≠ Pointer.null ∧
      (QueryInterface ⟨pWindow, n⟩ riid prior).out.denotesRoot ∧
      (n + 1 < wordSize →
        (QueryInterface ⟨pWindow, n⟩ riid prior).self = ⟨pWindow, n + 1⟩)) ∧
    (¬ supportedFacet riid →
      (QueryInterface ⟨pWindow, n⟩ riid prior).hr = E_NOINTERFACE ∧
      (QueryInterface ⟨pWindow, n⟩ riid prior).out = Pointer.null ∧
      (QueryInterface ⟨pWindow, n⟩ riid prior).self = ⟨pWindow, n⟩) := by
  constructor
  · intro hs
    unfold QueryInterface
    by_cases h1 : riid = IID_IUnknown
    · rw [if_pos h1]
      exact ⟨rfl, fun h => Pointer.noConfusion h, ⟨_, rfl⟩, addRef_of_lt pWindow n⟩
    · by_cases h2 : riid = IID_IRawElementProviderSimple
      · rw [if_neg h1, if_pos h2]
        exact ⟨rfl, fun h => Pointer.noConfusion h, ⟨_, rfl⟩, addRef_of_lt pWindow n⟩
      · by_cases h3 : riid = IID_IRawElementProviderFragment
        · rw [if_neg h1, if_neg h2, if_pos h3]
          exact ⟨rfl, fun h => Pointer.noConfusion h, ⟨_, rfl⟩, addRef_of_lt pWindow n⟩
        · by_cases h4 : riid = IID_IRawElementProviderFragmentRoot
          · rw [if_neg h1, if_neg h2, if_neg h3, if_pos h4]
            exact ⟨rfl, fun h => Pointer.noConfusion h, ⟨_, rfl⟩, addRef_of_lt pWindow n⟩
          · exact absurd hs (by simp [supportedFacet, h1, h2, h3, h4])
  · intro hs
    have h1 : riid ≠ IID_IUnknown := fun h => hs (Or.inl h)
    have h2 : riid ≠ IID_IRawElementProviderSimple := fun h => hs (Or.inr (Or.inl h))
    have h3 : riid ≠ IID_IRawElementProviderFragment :=
      fun h => hs (Or.inr (Or.inr (Or.inl h)))
    have h4 : riid ≠ IID_IRawElementProviderFragmentRoot :=
      fun h => hs (Or.inr (Or.inr (Or.inr h)))
    unfold QueryInterface
    rw [if_neg h1, if_neg h2, if_neg h3, if_neg h4]
    exact ⟨rfl, rfl, rfl⟩

/-- C2, witness: the fragment interface asked of a root with one reference,
and an unknown interface asked of a root whose counter is at its maximum. -/
theorem C2_QueryInterface_witness :
    supportedFacet IID_IRawElementProviderFragment ∧ 1 + 1 < wordSize ∧
    (QueryInterface ⟨some sampleWindow, 1⟩ IID_IRawElementProviderFragment Pointer.null).self
      = ⟨some sampleWindow, 2⟩ ∧
    ¬ supportedFacet 12345 ∧
    (QueryInterface ⟨some sampleWindow, 4294967295⟩ 12345 (Pointer.foreign 3)).self
      = ⟨some sampleWindow, 4294967295⟩ :=
  ⟨by decide, by decide,
   ((C2_QueryInterface (some sampleWindow) 1 IID_IRawElementProviderFragment
      Pointer.null).1 (by decide)).2.2.2 (by decide),
   by decide,
   ((C2_QueryInterface (some sampleWindow) 4294967295 12345 (Pointer.foreign 3)).2
      (by decide)).2.2⟩

/-- C2, counterexample: at reference count 2^32 - 1 a successful QueryInterface
wraps the 32-bit counter to 0 instead of leaving it at 2^32. -/
theorem C2_counterexample :
    supportedFacet IID_IUnknown ∧
    (QueryInterface ⟨some sampleWindow, 4294967295⟩ IID_IUnknown Pointer.null).hr = S_OK ∧
    (QueryInterface ⟨some sampleWindow, 4294967295⟩ IID_IUnknown Pointer.null).self._refCount
      = 0 ∧
    (QueryInterface ⟨some sampleWindow, 4294967295⟩ IID_IUnknown Pointer.null).self._refCount
      ≠ 4294967295 + 1 := by
  decide

/-! ## C3: Navigate -/

theorem ensureValidHwnd_window (env : Env) (w : Window) (n : Nat)
    (h : env.IsWindow w.GetWindowHandle = true) :
    _EnsureValidHwnd env ⟨some w, n⟩ = S_OK :=
  ensureValidHwnd_live env ⟨some w, n⟩ h

theorem getScreenInfoProvider_ok (env : Env) (w : Window) (n : Nat) (heap : Heap)
    (h : env.newOk = true) :
    _GetScreenInfoProvider env ⟨some w, n⟩ heap
      = (Pointer.leaf heap.length, heap ++ [⟨w, w.GetScreenInfo⟩]) := by
  simp [_GetScreenInfoProvider, newScreenInfoUiaProvider, h]

theorem getScreenInfoProvider_noMemory (env : Env) (self : WindowUiaProvider) (heap : Heap)
    (h : env.newOk = false) :
    _GetScreenInfoProvider env self heap = (Pointer.null, heap) := by
  unfold _GetScreenInfoProvider
  cases self._pWindow <;> simp [newScreenInfoUiaProvider, h]

theorem navigate_first_eq_last (env : Env) (self : WindowUiaProvider) (heap : Heap)
    (prior : Pointer) :
    Navigate env self heap NavigateDirection.FirstChild prior
      = Navigate env self heap NavigateDirection.LastChild prior := by
  simp [Navigate]

/-- C3: with a live window, Navigate to the first or the last child returns
success and a pointer to a leaf constructed by this call from the window and
its screen-buffer state (the address was free before the call and holds that
leaf afterwards, the older objects are untouched) when the allocation succeeds,
and out-of-memory when it fails; Navigate to the parent, the next or the
previous sibling returns success with a null result; first child and last
child give the same outcome in the same state. -/
theorem C3_Navigate (env : Env) (w : Window) (n : Nat) (heap : Heap)
    (d : NavigateDirection) (prior : Pointer)
    (hlive : env.IsWindow w.GetWindowHandle = true) :
    (d = NavigateDirection.FirstChild ∨ d = NavigateDirection.LastChild →
      env.newOk = true →
      (Navigate env ⟨some w, n⟩ heap d prior).1.hr = S_OK ∧
      (Navigate env ⟨some w, n⟩ heap d prior).1.out = Pointer.leaf heap.length ∧
      heap[heap.length]? = none ∧
      (Navigate env ⟨some w, n⟩ heap d prior).2[heap.length]?
        = some ⟨w, w.GetScreenInfo⟩ ∧
      (Navigate env ⟨some w, n⟩ heap d prior).2 = heap ++ [⟨w, w.GetScreenInfo⟩]) ∧
    (d = NavigateDirection.FirstChild ∨ d = NavigateDirection.LastChild →
      env.newOk = false →
      (Navigate env ⟨some w, n⟩ heap d prior).1.hr = E_OUTOFMEMORY ∧
      (Navigate env ⟨some w, n⟩ heap d prior).2 = heap) ∧
    (d = NavigateDirection.Parent ∨ d = NavigateDirection.NextSibling ∨
        d = NavigateDirection.PreviousSibling →
      (Navigate env ⟨some w, n⟩ heap d prior).1.hr = S_OK ∧
      (Navigate env ⟨some w, n⟩ heap d prior).1.out = Pointer.null ∧
      (Navigate env ⟨some w, n⟩ heap d prior).2 = heap) ∧
    Navigate env ⟨some w, n⟩ heap NavigateDirection.FirstChild prior
      = Navigate env ⟨some w, n⟩ heap NavigateDirection.LastChild prior := by
  have hg := ensureValidHwnd_window env w n hlive
  have hf := failed_ok
  refine ⟨?_, ?_, ?_, navigate_first_eq_last env _ heap prior⟩
  · intro hd hnew
    have hp := getScreenInfoProvider_ok env w n heap hnew
    simp [Navigate, hg, hf, hd, hp]
  · intro hd hnew
    have hp := getScreenInfoProvider_noMemory env ⟨some w, n⟩ heap hnew
    simp [Navigate, hg, hf, hd, hp]
  · intro hd
    have h1 : ¬ (d = NavigateDirection.FirstChild ∨ d = NavigateDirection.LastChild) := by
      rcases hd with h | h | h <;> simp [h]
    simp [Navigate, hg, hf, h1]

/-- C3, witness: the first child of the sample root on the live platform. -/
theorem C3_Navigate_witness :
    liveEnv.IsWindow sampleWindow.GetWindowHandle = true ∧
    (Navigate liveEnv ⟨some sampleWindow, 1⟩ [] NavigateDirection.FirstChild
        (Pointer.foreign 3)).1.out = Pointer.leaf 0 ∧
    (Navigate liveEnv ⟨some sampleWindow, 1⟩ [] NavigateDirection.FirstChild
        (Pointer.foreign 3)).2 = [⟨sampleWindow, 9⟩] :=
  have h := (C3_Navigate liveEnv sampleWindow 1 [] NavigateDirection.FirstChild
    (Pointer.foreign 3) (by decide)).1 (Or.inl rfl) rfl
  ⟨by decide, h.2.1, h.2.2.2.2⟩

/-! ## C4: GetPropertyValue -/

/-- C4: with a live window and a successful string allocation,
GetPropertyValue returns success and the value of the table: control type ->
VT_I4 holding the window control type; automation id -> VT_BSTR "Console
Window"; is-control-element -> VT_BOOL true; is-keyboard-focusable -> VT_BOOL
false; has-keyboard-focus -> VT_BOOL false; provider description -> VT_BSTR
"Microsoft Console Host Window"; every other id -> VT_EMPTY. -/
theorem C4_GetPropertyValue (env : Env) (w : Window) (n : Nat) (id : PROPERTYID)
    (prior : VARIANT)
    (hlive : env.IsWindow w.GetWindowHandle = true) (halloc : env.sysAllocOk = true) :
    (GetPropertyValue env ⟨some w, n⟩ id prior).hr = S_OK ∧
    (id = UIA_ControlTypePropertyId →
      (GetPropertyValue env ⟨some w, n⟩ id prior).out
        = ⟨VT_I4, Payload.lVal UIA_WindowControlTypeId⟩) ∧
    (id = UIA_AutomationIdPropertyId →
      (GetPropertyValue env ⟨some w, n⟩ id prior).out
        = ⟨VT_BSTR, Payload.bstrVal (some "Console Window")⟩) ∧
    (id = UIA_IsControlElementPropertyId →
      (GetPropertyValue env ⟨some w, n⟩ id prior).out
        = ⟨VT_BOOL, Payload.boolVal VARIANT_TRUE⟩) ∧
    (id = UIA_IsKeyboardFocusablePropertyId →
      (GetPropertyValue env ⟨some w, n⟩ id prior).out
        = ⟨VT_BOOL, Payload.boolVal VARIANT_FALSE⟩) ∧
    (id = UIA_HasKeyboardFocusPropertyId →
      (GetPropertyValue env ⟨some w, n⟩ id prior).out
        = ⟨VT_BOOL, Payload.boolVal VARIANT_FALSE⟩) ∧
    (id = UIA_ProviderDescriptionPropertyId →
      (GetPropertyValue env ⟨some w, n⟩ id prior).out
        = ⟨VT_BSTR, Payload.bstrVal (some "Microsoft Console Host Window")⟩) ∧
    (id ≠ UIA_ControlTypePropertyId → id ≠ UIA_AutomationIdPropertyId →
      id ≠ UIA_IsControlElementPropertyId → id ≠ UIA_IsKeyboardFocusablePropertyId →
      id ≠ UIA_HasKeyboardFocusPropertyId → id ≠ UIA_ProviderDescriptionPropertyId →
      (GetPropertyValue env ⟨some w, n⟩ id prior).out.vt = VT_EMPTY) := by
  have hg := ensureValidHwnd_window env w n hlive
  have hf := failed_ok
  have hs1 : SysAllocString env "Console Window" = some "Console Window" := by
    simp [SysAllocString, halloc]
  have hs2 : SysAllocString env "Microsoft Console Host Window"
      = some "Microsoft Console Host Window" := by
    simp [SysAllocString, halloc]
  refine ⟨?_, ?_, ?_, ?_, ?_, ?_, ?_, ?_⟩
  · unfold GetPropertyValue
    simp only [hg, hf, Bool.false_eq_true, if_false]
    split_ifs <;> rfl
  · intro h
    unfold GetPropertyValue
    simp only [hg, hf, Bool.false_eq_true, if_false, if_pos h]
  · intro h
    have n1 : id ≠ UIA_ControlTypePropertyId := by rw [h]; decide
    unfold GetPropertyValue
    simp only [hg, hf, hs1, Bool.false_eq_true, if_false, if_neg n1, if_pos h]
    simp
  · intro h
    have n1 : id ≠ UIA_ControlTypePropertyId := by rw [h]; decide
    have n2 : id ≠ UIA_AutomationIdPropertyId := by rw [h]; decide
    unfold GetPropertyValue
    simp only [hg, hf, Bool.false_eq_true, if_false, if_neg n1, if_neg n2, if_pos h]
  · intro h
    have n1 : id ≠ UIA_ControlTypePropertyId := by rw [h]; decide
    have n2 : id ≠ UIA_AutomationIdPropertyId := by rw [h]; decide
    have n3 : id ≠ UIA_IsControlElementPropertyId := by rw [h]; decide
    unfold GetPropertyValue
    simp only [hg, hf, Bool.false_eq_true, if_false, if_neg n1, if_neg n2, if_neg n3,
      if_pos h]
  · intro h
    have n1 : id ≠ UIA_ControlTypePropertyId := by rw [h]; decide
    have n2 : id ≠ UIA_AutomationIdPropertyId := by rw [h]; decide
    have n3 : id ≠ UIA_IsControlElementPropertyId := by rw [h]; decide
    have n4 : id ≠ UIA_IsKeyboardFocusablePropertyId := by rw [h]; decide
    unfold GetPropertyValue
    simp only [hg, hf, Bool.false_eq_true, if_false, if_neg n1, if_neg n2, if_neg n3,
      if_neg n4, if_pos h]
  · intro h
    have n1 : id ≠ UIA_ControlTypePropertyId := by rw [h]; decide
    have n2 : id ≠ UIA_AutomationIdPropertyId := by rw [h]; decide
    have n3 : id ≠ UIA_IsControlElementPropertyId := by rw [h]; decide
    have n4 : id ≠ UIA_IsKeyboardFocusablePropertyId := by rw [h]; decide
    have n5 : id ≠ UIA_HasKeyboardFocusPropertyId := by rw [h]; decide
    unfold GetPropertyValue
    simp only [hg, hf, hs2, Bool.false_eq_true, if_false, if_neg n1, if_neg n2, if_neg n3,
      if_neg n4, if_neg n5, if_pos h]
    simp
  · intro n1 n2 n3 n4 n5 n6
    unfold GetPropertyValue
    simp only [hg, hf, Bool.false_eq_true, if_false, if_neg n1, if_neg n2, if_neg n3,
      if_neg n4, if_neg n5, if_neg n6]

/-- C4, witness: the automation id of the sample root on the live platform. -/
theorem C4_GetPropertyValue_witness :
    liveEnv.IsWindow sampleWindow.GetWindowHandle = true ∧ liveEnv.sysAllocOk = true ∧
    (GetPropertyValue liveEnv ⟨some sampleWindow, 1⟩ UIA_AutomationIdPropertyId
        ⟨VT_I4, Payload.lVal 12⟩).out
      = ⟨VT_BSTR, Payload.bstrVal (some "Console Window")⟩ :=
  ⟨by decide, rfl,
   (C4_GetPropertyValue liveEnv sampleWindow 1 UIA_AutomationIdPropertyId
      ⟨VT_I4, Payload.lVal 12⟩ (by decide) rfl).2.2.1 rfl⟩

/-! ## C5: get_BoundingRectangle -/

theorem wrapLONG_of_inLONG (x : Int) (h : inLONG x) : wrapLONG x = x := by
  unfold wrapLONG
  unfold inLONG at h
  omega

theorem wrapLONG_zero : wrapLONG 0 = 0 := by decide

/-- C5: for every live window whose current rectangle is (left, top, right,
bottom), get_BoundingRectangle returns success with left = left, top = top,
width = right - left and height = bottom - top, for every rectangle a window
reports, that is, one whose width and height are themselves 32-bit signed
integers; in particular width = 0 and height = 0 when right = left and
bottom = top. -/
theorem C5_get_BoundingRectangle (env : Env) (w : Window) (n : Nat) (prior : UiaRect)
    (hlive : env.IsWindow w.GetWindowHandle = true) :
    (get_BoundingRectangle env ⟨some w, n⟩ prior).hr = S_OK ∧
    (get_BoundingRectangle env ⟨some w, n⟩ prior).out.left = w.GetWindowRect.left ∧
    (get_BoundingRectangle env ⟨some w, n⟩ prior).out.top = w.GetWindowRect.top ∧
    (inLONG (w.GetWindowRect.right - w.GetWindowRect.left) →
      (get_BoundingRectangle env ⟨some w, n⟩ prior).out.width
        = w.GetWindowRect.right - w.GetWindowRect.left) ∧
    (inLONG (w.GetWindowRect.bottom - w.GetWindowRect.top) →
      (get_BoundingRectangle env ⟨some w, n⟩ prior).out.height
        = w.GetWindowRect.bottom - w.GetWindowRect.top) ∧
    (w.GetWindowRect.right = w.GetWindowRect.left →
      (get_BoundingRectangle env ⟨some w, n⟩ prior).out.width = 0) ∧
    (w.GetWindowRect.bottom = w.GetWindowRect.top →
      (get_BoundingRectangle env ⟨some w, n⟩ prior).out.height = 0) := by
  have hg := ensureValidHwnd_window env w n hlive
  have hf := failed_ok
  have hr : get_BoundingRectangle env ⟨some w, n⟩ prior
      = { hr := S_OK,
          out := { left := w.GetWindowRect.left, top := w.GetWindowRect.top,
                   width := wrapLONG (w.GetWindowRect.right - w.GetWindowRect.left),
                   height := wrapLONG (w.GetWindowRect.bottom - w.GetWindowRect.top) },
          self := ⟨some w, n⟩ } := by
    unfold get_BoundingRectangle
    simp only [hg, hf, Bool.false_eq_true, if_false]
  rw [hr]
  refine ⟨rfl, rfl, rfl, ?_, ?_, ?_, ?_⟩
  · intro h; exact wrapLONG_of_inLONG _ h
  · intro h; exact wrapLONG_of_inLONG _ h
  · intro h; simp only [h, sub_self]; exact wrapLONG_zero
  · intro h; simp only [h, sub_self]; exact wrapLONG_zero

/-- C5, witness: the sample window, 100 wide and 50 high, and a window
collapsed to a point. -/
theorem C5_get_BoundingRectangle_witness :
    liveEnv.IsWindow sampleWindow.GetWindowHandle = true ∧
    inLONG (sampleWindow.GetWindowRect.right - sampleWindow.GetWindowRect.left) ∧
    (get_BoundingRectangle liveEnv ⟨some sampleWindow, 1⟩ ⟨0, 0, 0, 0⟩).out.width
      = sampleWindow.GetWindowRect.right - sampleWindow.GetWindowRect.left ∧
    (get_BoundingRectangle liveEnv ⟨some minimizedWindow, 1⟩ ⟨1, 2, 3, 4⟩).out.height = 0 :=
  ⟨by decide, by decide,
   (C5_get_BoundingRectangle liveEnv sampleWindow 1 ⟨0, 0, 0, 0⟩ (by decide)).2.2.2.1
     (by decide),
   (C5_get_BoundingRectangle liveEnv minimizedWindow 1 ⟨1, 2, 3, 4⟩ (by decide)).2.2.2.2.2.2
     rfl⟩

/-! ## C6: the lifetime of the root under reference counting -/

theorem History.run_nil (h : History) : h.run [] = h := rfl

theorem History.run_cons (h : History) (c : Call) (cs : List Call) :
    h.run (c :: cs) = (h.step c).run cs := rfl

theorem History.run_append (h : History) (cs ds : List Call) :
    h.run (cs ++ ds) = (h.run cs).run ds := by
  simp [History.run, List.foldl_append]

theorem queryInterface_cases (self : WindowUiaProvider) (riid : GUID) (prior : Pointer) :
    ((QueryInterface self riid prior).hr = S_OK ∧
      (QueryInterface self riid prior).self = (AddRef self).2) ∨
    ((QueryInterface self riid prior).hr = E_NOINTERFACE ∧
      (QueryInterface self riid prior).self = self) := by
  unfold QueryInterface
  split_ifs <;> simp

theorem get_FragmentRoot_cases (env : Env) (self : WindowUiaProvider) (prior : Pointer) :
    ((get_FragmentRoot env self prior).hr = S_OK ∧
      (get_FragmentRoot env self prior).self = (AddRef self).2) ∨
    ((get_FragmentRoot env self prior).hr = UIA_E_ELEMENTNOTAVAILABLE ∧
      (get_FragmentRoot env self prior).self = self) := by
  cases h : env.IsWindow (_GetWindowHandle self)
  · right
    have hg := ensureValidHwnd_dead env self h
    simp [get_FragmentRoot, hg, failed_elementNotAvailable]
  · left
    have hg := ensureValidHwnd_live env self h
    simp [get_FragmentRoot, hg, failed_ok]

theorem noInterface_ne_ok : E_NOINTERFACE ≠ S_OK := by decide

theorem elementNotAvailable_ne_ok : UIA_E_ELEMENTNOTAVAILABLE ≠ S_OK := by decide

theorem interlockedDecrement_of_pos (n : Nat) (h1 : 1 ≤ n) (h2 : n < wordSize) :
    InterlockedDecrement n = n - 1 := by
  unfold InterlockedDecrement wordSize at *
  omega

theorem release_of_counted (self : WindowUiaProvider) (h1 : 1 ≤ self._refCount)
    (h2 : self._refCount < wordSize) :
    Release self
      = if self._refCount = 1 then (0, none)
        else (self._refCount - 1, some { self with _refCount := self._refCount - 1 }) := by
  have hdec := interlockedDecrement_of_pos _ h1 h2
  unfold Release
  simp only [hdec]
  by_cases h : self._refCount = 1
  · have h0 : self._refCount - 1 = 0 := by omega
    rw [if_pos h0, if_pos h, h0]
  · have h0 : ¬ (self._refCount - 1 = 0) := by omega
    rw [if_neg h0, if_neg h]

theorem addRef_of_counted (self : WindowUiaProvider) (h : self._refCount + 1 < wordSize) :
    AddRef self = (self._refCount + 1, { self with _refCount := self._refCount + 1 }) := by
  have hinc := interlockedIncrement_of_lt _ h
  unfold AddRef
  simp only [hinc]

theorem History.balanced_addRef (self : WindowUiaProvider) (a r : Nat)
    (hb : self._refCount + r = a + 1 ∧ 1 ≤ self._refCount)
    (hlt : a + 1 + 1 < wordSize + r) :
    (AddRef self).2._refCount + r = a + 1 + 1 ∧ 1 ≤ (AddRef self).2._refCount := by
  rw [addRef_of_counted self (by omega)]
  simp only
  omega

theorem History.step_addRef (self : WindowUiaProvider) (a r : Nat) :
    (History.mk (some self) a r).step Call.AddRef
      = History.mk (some (AddRef self).2) (a + 1) r := rfl

theorem History.step_release (self : WindowUiaProvider) (a r : Nat) :
    (History.mk (some self) a r).step Call.Release
      = History.mk (Release self).2 a (r + 1) := rfl

theorem History.step_queryInterface (self : WindowUiaProvider) (a r : Nat) (riid : GUID) :
    (History.mk (some self) a r).step (Call.QueryInterface riid)
      = History.mk (some (QueryInterface self riid Pointer.null).self)
          (a + (if (QueryInterface self riid Pointer.null).hr = S_OK then 1 else 0)) r := rfl

theorem History.step_get_FragmentRoot (self : WindowUiaProvider) (a r : Nat) (env : Env) :
    (History.mk (some self) a r).step (Call.get_FragmentRoot env)
      = History.mk (some (get_FragmentRoot env self Pointer.null).self)
          (a + (if (get_FragmentRoot env self Pointer.null).hr = S_OK then 1 else 0)) r := rfl

theorem History.balanced_some (self : WindowUiaProvider) (a r : Nat) :
    (History.mk (some self) a r).balanced
      ↔ (self._refCount + r = a + 1 ∧ 1 ≤ self._refCount) := Iff.rfl

theorem History.balanced_none (a r : Nat) :
    (History.mk none a r).balanced ↔ r = a + 1 := Iff.rfl

theorem History.balanced_step (h : History) (c : Call) (hb : h.balanced)
    (hpre : h.inRange) (hpost : (h.step c).inRange) : (h.step c).balanced := by
  obtain ⟨obj, a, r⟩ := h
  cases obj with
  | none => exact hb
  | some self =>
    have hb0 : self._refCount + r = a + 1 ∧ 1 ≤ self._refCount := hb
    have hpre0 : a + 1 < wordSize + r := hpre
    cases c with
    | AddRef =>
      rw [History.step_addRef] at hpost ⊢
      have hlt : a + 1 + 1 < wordSize + r := hpost
      exact (History.balanced_some _ _ _).2 (History.balanced_addRef self a r hb0 hlt)
    | QueryInterface riid =>
      rw [History.step_queryInterface] at hpost ⊢
      rcases queryInterface_cases self riid Pointer.null with ⟨h1, h2⟩ | ⟨h1, h2⟩
      · rw [h1, h2, if_pos rfl] at hpost ⊢
        have hlt : a + 1 + 1 < wordSize + r := hpost
        exact (History.balanced_some _ _ _).2 (History.balanced_addRef self a r hb0 hlt)
      · rw [h1, h2, if_neg noInterface_ne_ok]
        exact (History.balanced_some _ _ _).2 hb0
    | get_FragmentRoot env =>
      rw [History.step_get_FragmentRoot] at hpost ⊢
      rcases get_FragmentRoot_cases env self Pointer.null with ⟨h1, h2⟩ | ⟨h1, h2⟩
      · rw [h1, h2, if_pos rfl] at hpost ⊢
        have hlt : a + 1 + 1 < wordSize + r := hpost
        exact (History.balanced_some _ _ _).2 (History.balanced_addRef self a r hb0 hlt)
      · rw [h1, h2, if_neg elementNotAvailable_ne_ok]
        exact (History.balanced_some _ _ _).2 hb0
    | Release =>
      rw [History.step_release]
      rw [release_of_counted self hb0.2 (by omega)]
      by_cases h1 : self._refCount = 1
      · rw [if_pos h1]
        refine (History.balanced_none _ _).2 ?_
        omega
      · rw [if_neg h1]
        refine (History.balanced_some _ _ _).2 ?_
        simp only
        omega

theorem History.balanced_run (cs : List Call) (h : History) (hb : h.balanced)
    (hrange : ∀ k, (h.run (cs.take k)).inRange) : (h.run cs).balanced := by
  induction cs generalizing h with
  | nil => exact hb
  | cons c cs ih =>
    have h0 : h.inRange := hrange 0
    have h1 : (h.step c).inRange := hrange 1
    rw [History.run_cons]
    exact ih (h.step c) (History.balanced_step h c hb h0 h1) (fun k => hrange (k + 1))

theorem History.balanced_start (pWindow : Option Window) :
    (History.start pWindow).balanced := by
  simp [History.start, History.balanced, WindowUiaProvider.new]

theorem History.run_replicate_addRef (k : Nat) (pWindow : Option Window) (n a r : Nat)
    (hn : n < wordSize) :
    (History.mk (some ⟨pWindow, n⟩) a r).run (List.replicate k Call.AddRef)
      = History.mk (some ⟨pWindow, (n + k) % wordSize⟩) (a + k) r := by
  induction k generalizing n a with
  | zero =>
    have h0 : (n + 0) % wordSize = n := Nat.mod_eq_of_lt hn
    rw [List.replicate_zero, History.run_nil, h0, Nat.add_zero]
  | succ k ih =>
    have hpos : 0 < wordSize := by decide
    have hstep : (AddRef ⟨pWindow, n⟩).2 = ⟨pWindow, (n + 1) % wordSize⟩ := rfl
    have h1 : ((n + 1) % wordSize + k) % wordSize = (n + (k + 1)) % wordSize := by
      rw [Nat.mod_add_mod, Nat.add_assoc, Nat.add_comm 1 k]
    have h2 : a + 1 + k = a + (k + 1) := by omega
    rw [List.replicate_succ, History.run_cons, History.step_addRef, hstep,
      ih ((n + 1) % wordSize) (a + 1) (Nat.mod_lt _ hpos), h1, h2]

/-- C6 (amended): starting from a newly constructed root (count 1), for every
finite sequence of AddRef, QueryInterface, get_FragmentRoot and Release calls
made on the still-existing object during which the number of references
outstanding (1 plus the successful acquiring calls minus the Release calls)
stays below 2^32: while the object exists its count is that number, and is at
least 1; a Release destroys the object exactly when it takes the count from 1
to 0, that is exactly when, counting that call, the Release calls number 1
plus the acquiring calls; an object that is gone has had every reference
released; AddRef and Release each return the count after their update. -/
theorem C6_lifetime (pWindow : Option Window) (cs : List Call)
    (hrange : ∀ k, ((History.start pWindow).run (cs.take k)).inRange) :
    (((History.start pWindow).run cs).obj = none →
      ((History.start pWindow).run cs).released
        = ((History.start pWindow).run cs).acquired + 1) ∧
    (∀ self, ((History.start pWindow).run cs).obj = some self →
      self._refCount + ((History.start pWindow).run cs).released
        = ((History.start pWindow).run cs).acquired + 1 ∧
      1 ≤ self._refCount ∧
      ((Release self).2 = none ↔ self._refCount = 1) ∧
      ((Release self).2 = none ↔
        ((History.start pWindow).run cs).released + 1
          = ((History.start pWindow).run cs).acquired + 1) ∧
      (Release self).1 = self._refCount - 1 ∧
      (∀ t, (Release self).2 = some t →
        t._refCount = (Release self).1 ∧ t._pWindow = self._pWindow) ∧
      (AddRef self).1 = (AddRef self).2._refCount ∧
      (((History.start pWindow).run cs).acquired + 1 + 1
          < wordSize + ((History.start pWindow).run cs).released →
        (AddRef self).1 = self._refCount + 1)) := by
  have hb := History.balanced_run cs (History.start pWindow)
    (History.balanced_start pWindow) hrange
  have hfin : ((History.start pWindow).run cs).inRange := by
    have h := hrange cs.length
    rwa [List.take_length] at h
  generalize (History.start pWindow).run cs = h at hb hfin ⊢
  obtain ⟨obj, a, r⟩ := h
  constructor
  · intro hnone
    have hnone0 : obj = none := hnone
    subst hnone0
    exact hb
  · intro self hsome
    have hsome0 : obj = some self := hsome
    subst hsome0
    have hb0 : self._refCount + r = a + 1 ∧ 1 ≤ self._refCount := hb
    have hlt : a + 1 < wordSize + r := hfin
    have hR := release_of_counted self hb0.2 (by omega)
    show self._refCount + r = a + 1 ∧ 1 ≤ self._refCount ∧
      ((Release self).2 = none ↔ self._refCount = 1) ∧
      ((Release self).2 = none ↔ r + 1 = a + 1) ∧
      (Release self).1 = self._refCount - 1 ∧
      (∀ t, (Release self).2 = some t →
        t._refCount = (Release self).1 ∧ t._pWindow = self._pWindow) ∧
      (AddRef self).1 = (AddRef self).2._refCount ∧
      (a + 1 + 1 < wordSize + r → (AddRef self).1 = self._refCount + 1)
    refine ⟨hb0.1, hb0.2, ?_, ?_, ?_, ?_, rfl, ?_⟩
    · by_cases h1 : self._refCount = 1
      · rw [hR, if_pos h1]
        exact ⟨fun _ => h1, fun _ => rfl⟩
      · rw [hR, if_neg h1]
        exact ⟨fun h => Option.noConfusion h, fun h => absurd h h1⟩
    · by_cases h1 : self._refCount = 1
      · rw [hR, if_pos h1]
        exact ⟨fun _ => by omega, fun _ => rfl⟩
      · rw [hR, if_neg h1]
        exact ⟨fun h => Option.noConfusion h, fun h => absurd (by omega) h1⟩
    · by_cases h1 : self._refCount = 1
      · rw [hR, if_pos h1, h1]
      · rw [hR, if_neg h1]
    · intro t ht
      by_cases h1 : self._refCount = 1
      · rw [hR, if_pos h1] at ht
        exact Option.noConfusion ht
      · rw [hR, if_neg h1] at ht ⊢
        have ht0 : { self with _refCount := self._refCount - 1 } = t := Option.some.inj ht
        rw [← ht0]
        exact ⟨rfl, rfl⟩
    · intro hlt2
      rw [addRef_of_counted self (by omega)]

/-- C6, witness: AddRef, QueryInterface, Release, Release on the sample root
leave one reference; the next Release destroys the object. -/
theorem C6_lifetime_witness :
    ((History.start (some sampleWindow)).run
      [Call.AddRef, Call.QueryInterface IID_IUnknown, Call.Release, Call.Release]).obj
      = some ⟨some sampleWindow, 1⟩ ∧
    ((Release ⟨some sampleWindow, 1⟩).2 = none ↔ (1 : Nat) = 1) :=
  ⟨by decide,
   ((C6_lifetime (some sampleWindow)
      [Call.AddRef, Call.QueryInterface IID_IUnknown, Call.Release, Call.Release]
      (by
        intro k
        rcases k with _ | _ | _ | _ | _ | k
        · decide
        · decide
        · decide
        · decide
        · decide
        · show ((History.start (some sampleWindow)).run
            [Call.AddRef, Call.QueryInterface IID_IUnknown, Call.Release,
              Call.Release]).inRange
          decide)).2
      ⟨some sampleWindow, 1⟩ (by decide)).2.2.1⟩

/-- C6, counterexample: after 2^32 AddRef calls the 32-bit counter is back at
1, so a single Release destroys the object although 2^32 references are still
outstanding: one Release call against 2^32 acquiring calls. -/
theorem C6_counterexample :
    ((History.start (some sampleWindow)).run
      (List.replicate 4294967296 Call.AddRef ++ [Call.Release])).obj = none ∧
    ((History.start (some sampleWindow)).run
      (List.replicate 4294967296 Call.AddRef ++ [Call.Release])).acquired = 4294967296 ∧
    ((History.start (some sampleWindow)).run
      (List.replicate 4294967296 Call.AddRef ++ [Call.Release])).released = 1 ∧
    ((History.start (some sampleWindow)).run
      (List.replicate 4294967296 Call.AddRef ++ [Call.Release])).released
      ≠ ((History.start (some sampleWindow)).run
          (List.replicate 4294967296 Call.AddRef ++ [Call.Release])).acquired + 1 := by
  have h : (History.start (some sampleWindow)).run
      (List.replicate 4294967296 Call.AddRef ++ [Call.Release])
      = History.mk none 4294967296 1 := by
    have e : (1 + 4294967296) % wordSize = 1 := by decide
    have hrel : (Release ⟨some sampleWindow, 1⟩).2 = none := by decide
    rw [History.run_append]
    unfold History.start WindowUiaProvider.new
    rw [History.run_replicate_addRef 4294967296 (some sampleWindow) 1 0 0 (by decide), e,
      History.run_cons, History.run_nil, History.step_release, hrel, Nat.zero_add]
  rw [h]
  decide

/-! ## C7: the operations with a constant result -/

/-- C7 (amended): GetPatternProvider, GetEmbeddedFragmentRoots, GetFocus and
Navigate to the next or previous sibling return success with a null result
for every pattern id whenever `IsWindow` holds for the window handle, and
element-not-available whenever it does not. -/
theorem C7_constant_results (env : Env) (self : WindowUiaProvider) (heap : Heap)
    (patternId : PATTERNID) (d : NavigateDirection) (prior : Pointer)
    (hd : d = NavigateDirection.NextSibling ∨ d = NavigateDirection.PreviousSibling) :
    (env.IsWindow (_GetWindowHandle self) = true →
      ((GetPatternProvider env self patternId prior).hr = S_OK ∧
       (GetPatternProvider env self patternId prior).out = Pointer.null) ∧
      ((GetEmbeddedFragmentRoots env self prior).hr = S_OK ∧
       (GetEmbeddedFragmentRoots env self prior).out = Pointer.null) ∧
      ((GetFocus env self prior).hr = S_OK ∧
       (GetFocus env self prior).out = Pointer.null) ∧
      ((Navigate env self heap d prior).1.hr = S_OK ∧
       (Navigate env self heap d prior).1.out = Pointer.null)) ∧
    (env.IsWindow (_GetWindowHandle self) = false →
      (GetPatternProvider env self patternId prior).hr = UIA_E_ELEMENTNOTAVAILABLE ∧
      (GetEmbeddedFragmentRoots env self prior).hr = UIA_E_ELEMENTNOTAVAILABLE ∧
      (GetFocus env self prior).hr = UIA_E_ELEMENTNOTAVAILABLE ∧
      (Navigate env self heap d prior).1.hr = UIA_E_ELEMENTNOTAVAILABLE) := by
  have h1 : ¬ (d = NavigateDirection.FirstChild ∨ d = NavigateDirection.LastChild) := by
    rcases hd with h | h <;> simp [h]
  constructor
  · intro hlive
    have hg := ensureValidHwnd_live env self hlive
    have hf := failed_ok
    simp [GetPatternProvider, GetEmbeddedFragmentRoots, GetFocus, Navigate, hg, hf, h1]
  · intro hdead
    have hg := ensureValidHwnd_dead env self hdead
    have hf := failed_elementNotAvailable
    simp [GetPatternProvider, GetEmbeddedFragmentRoots, GetFocus, Navigate, hg, hf]

/-- C7, witness: the sample root asked for pattern 10000 and its next sibling,
on the live and on the dead platform. -/
theorem C7_constant_results_witness :
    (GetPatternProvider liveEnv sampleRoot 10000 (Pointer.foreign 3)).out = Pointer.null ∧
    (Navigate deadEnv sampleRoot [] NavigateDirection.NextSibling (Pointer.foreign 3)).1.hr
      = UIA_E_ELEMENTNOTAVAILABLE :=
  ⟨((C7_constant_results liveEnv sampleRoot [] 10000 NavigateDirection.NextSibling
      (Pointer.foreign 3) (Or.inl rfl)).1 (by decide)).1.2,
   ((C7_constant_results deadEnv sampleRoot [] 10000 NavigateDirection.NextSibling
      (Pointer.foreign 3) (Or.inl rfl)).2 (by decide)).2.2.2⟩

/-- C7, counterexample: once the window is gone, pattern lookup, the
embedded-roots query, the focus query and sibling navigation all fail with
element-not-available instead of succeeding. -/
theorem C7_counterexample :
    (GetPatternProvider deadEnv sampleRoot 10000 Pointer.null).hr ≠ S_OK ∧
    (GetEmbeddedFragmentRoots deadEnv sampleRoot Pointer.null).hr ≠ S_OK ∧
    (GetFocus deadEnv sampleRoot Pointer.null).hr ≠ S_OK ∧
    (Navigate deadEnv sampleRoot [] NavigateDirection.NextSibling Pointer.null).1.hr ≠ S_OK ∧
    (Navigate deadEnv sampleRoot [] NavigateDirection.PreviousSibling Pointer.null).1.hr
      ≠ S_OK := by
  decide

/-! ## C8: ElementProviderFromPoint -/

/-- C8: ElementProviderFromPoint ignores its coordinates: in every state and
for every allocation outcome, two coordinate pairs give the same result code,
the same output and the same constructed leaf.  With a live window and a
successful allocation the result is success with a non-null pointer to a leaf
constructed by this call from the window and its screen-buffer state; with a
live window and a failed allocation it is out-of-memory. -/
theorem C8_ElementProviderFromPoint (env : Env) (self : WindowUiaProvider) (heap : Heap)
    (x1 y1 x2 y2 : Float) (prior : Pointer) :
    ElementProviderFromPoint env self heap x1 y1 prior
      = ElementProviderFromPoint env self heap x2 y2 prior ∧
    (∀ w, self._pWindow = some w → env.IsWindow w.GetWindowHandle = true →
      env.newOk = true →
      (ElementProviderFromPoint env self heap x1 y1 prior).1.hr = S_OK ∧
      (ElementProviderFromPoint env self heap x1 y1 prior).1.out ≠ Pointer.null ∧
      (ElementProviderFromPoint env self heap x1 y1 prior).1.out = Pointer.leaf heap.length ∧
      heap[heap.length]? = none ∧
      (ElementProviderFromPoint env self heap x1 y1 prior).2
        = heap ++ [⟨w, w.GetScreenInfo⟩]) ∧
    (∀ w, self._pWindow = some w → env.IsWindow w.GetWindowHandle = true →
      env.newOk = false →
      (ElementProviderFromPoint env self heap x1 y1 prior).1.hr = E_OUTOFMEMORY ∧
      (ElementProviderFromPoint env self heap x1 y1 prior).2 = heap) := by
  refine ⟨rfl, ?_, ?_⟩
  · intro w hw hlive hnew
    obtain ⟨pw, n⟩ := self
    simp only at hw
    subst hw
    have hg := ensureValidHwnd_window env w n hlive
    have hf := failed_ok
    have hp := getScreenInfoProvider_ok env w n heap hnew
    simp [ElementProviderFromPoint, hg, hf, hp]
  · intro w hw hlive hnew
    obtain ⟨pw, n⟩ := self
    simp only at hw
    subst hw
    have hg := ensureValidHwnd_window env w n hlive
    have hf := failed_ok
    have hp := getScreenInfoProvider_noMemory env ⟨some w, n⟩ heap hnew
    simp [ElementProviderFromPoint, hg, hf, hp]

/-- C8, witness: a point far outside the sample window still yields the leaf. -/
theorem C8_ElementProviderFromPoint_witness :
    (ElementProviderFromPoint liveEnv sampleRoot [] 100000 (-7) Pointer.null).1.hr = S_OK ∧
    (ElementProviderFromPoint liveEnv sampleRoot [] 100000 (-7) Pointer.null).2
      = [⟨sampleWindow, 9⟩] ∧
    (ElementProviderFromPoint liveEnvNoMemory sampleRoot [] 100000 (-7) Pointer.null).1.hr
      = E_OUTOFMEMORY :=
  have h := (C8_ElementProviderFromPoint liveEnv sampleRoot [] 100000 (-7) 0 0
    Pointer.null).2.1 sampleWindow rfl (by decide) rfl
  have k := (C8_ElementProviderFromPoint liveEnvNoMemory sampleRoot [] 100000 (-7) 0 0
    Pointer.null).2.2 sampleWindow rfl (by decide) rfl
  ⟨h.1, h.2.2.2.2, k.1⟩

/-! ## C9: get_FragmentRoot -/

/-- C9 (amended): for every reference count n, get_FragmentRoot on a live
window returns success and a pointer to the root object itself, and leaves the
count at n + 1 when n is below 2^32 - 1; when the window is not live it
returns element-not-available and the count stays n. -/
theorem C9_get_FragmentRoot (env : Env) (pWindow : Option Window) (n : Nat)
    (prior : Pointer) :
    (env.IsWindow (_GetWindowHandle ⟨pWindow, n⟩) = true →
      (get_FragmentRoot env ⟨pWindow, n⟩ prior).hr = S_OK ∧
      (get_FragmentRoot env ⟨pWindow, n⟩ prior).out
        = Pointer.this Facet.IRawElementProviderFragmentRoot ∧
      (get_FragmentRoot env ⟨pWindow, n⟩ prior).out.denotesRoot ∧
      (n + 1 < wordSize →
        (get_FragmentRoot env ⟨pWindow, n⟩ prior).self = ⟨pWindow, n + 1⟩)) ∧
    (env.IsWindow (_GetWindowHandle ⟨pWindow, n⟩) = false →
      (get_FragmentRoot env ⟨pWindow, n⟩ prior).hr = UIA_E_ELEMENTNOTAVAILABLE ∧
      (get_FragmentRoot env ⟨pWindow, n⟩ prior).self = ⟨pWindow, n⟩) := by
  constructor
  · intro hlive
    have hg := ensureValidHwnd_live env ⟨pWindow, n⟩ hlive
    have hf := failed_ok
    have key : get_FragmentRoot env ⟨pWindow, n⟩ prior
        = { hr := S_OK, out := Pointer.this Facet.IRawElementProviderFragmentRoot,
            self := (AddRef ⟨pWindow, n⟩).2 } := by
      unfold get_FragmentRoot
      simp only [hg, hf, Bool.false_eq_true, if_false]
    rw [key]
    exact ⟨rfl, rfl, ⟨_, rfl⟩, addRef_of_lt pWindow n⟩
  · intro hdead
    have hg := ensureValidHwnd_dead env ⟨pWindow, n⟩ hdead
    have hf := failed_elementNotAvailable
    have key : get_FragmentRoot env ⟨pWindow, n⟩ prior
        = { hr := UIA_E_ELEMENTNOTAVAILABLE, out := prior, self := ⟨pWindow, n⟩ } := by
      unfold get_FragmentRoot
      simp only [hg, hf, if_true]
    rw [key]
    exact ⟨rfl, rfl⟩

/-- C9, witness: the sample root with three references on the live platform,
and with its counter at the maximum on the dead platform. -/
theorem C9_get_FragmentRoot_witness :
    liveEnv.IsWindow (_GetWindowHandle ⟨some sampleWindow, 3⟩) = true ∧ 3 + 1 < wordSize ∧
    (get_FragmentRoot liveEnv ⟨some sampleWindow, 3⟩ Pointer.null).self
      = ⟨some sampleWindow, 4⟩ ∧
    deadEnv.IsWindow (_GetWindowHandle ⟨some sampleWindow, 4294967295⟩) = false ∧
    (get_FragmentRoot deadEnv ⟨some sampleWindow, 4294967295⟩ Pointer.null).self
      = ⟨some sampleWindow, 4294967295⟩ :=
  ⟨by decide, by decide,
   ((C9_get_FragmentRoot liveEnv (some sampleWindow) 3 Pointer.null).1
      (by decide)).2.2.2 (by decide),
   by decide,
   ((C9_get_FragmentRoot deadEnv (some sampleWindow) 4294967295 Pointer.null).2
      (by decide)).2⟩

/-- C9, counterexample: at reference count 2^32 - 1 a successful
get_FragmentRoot wraps the 32-bit counter to 0 instead of leaving it at 2^32. -/
theorem C9_counterexample :
    liveEnv.IsWindow (_GetWindowHandle ⟨some sampleWindow, 4294967295⟩) = true ∧
    (get_FragmentRoot liveEnv ⟨some sampleWindow, 4294967295⟩ Pointer.null).hr = S_OK ∧
    (get_FragmentRoot liveEnv ⟨some sampleWindow, 4294967295⟩ Pointer.null).self._refCount
      = 0 ∧
    (get_FragmentRoot liveEnv ⟨some sampleWindow, 4294967295⟩ Pointer.null).self._refCount
      ≠ 4294967295 + 1 := by
  decide

/-! ## C10: get_HostRawElementProvider -/

theorem sysAllocString_eq (env : Env) (s : String) :
    SysAllocString env s = if env.sysAllocOk = true then some s else none := rfl

theorem getPropertyValue_hr_live (env : Env) (self : WindowUiaProvider) (id : PROPERTYID)
    (prior : VARIANT) (hlive : env.IsWindow (_GetWindowHandle self) = true) :
    (GetPropertyValue env self id prior).hr = S_OK := by
  have hg := ensureValidHwnd_live env self hlive
  have hf := failed_ok
  unfold GetPropertyValue
  simp only [hg, hf, Bool.false_eq_true, if_false]
  split_ifs <;> rfl

theorem getPropertyValue_vt_live (env : Env) (self : WindowUiaProvider) (id : PROPERTYID)
    (prior : VARIANT) (hlive : env.IsWindow (_GetWindowHandle self) = true) :
    (GetPropertyValue env self id prior).out.vt
      = if id = UIA_ControlTypePropertyId then VT_I4
        else if id = UIA_AutomationIdPropertyId then
          (if env.sysAllocOk = true then VT_BSTR else VT_EMPTY)
        else if id = UIA_IsControlElementPropertyId then VT_BOOL
        else if id = UIA_IsKeyboardFocusablePropertyId then VT_BOOL
        else if id = UIA_HasKeyboardFocusPropertyId then VT_BOOL
        else if id = UIA_ProviderDescriptionPropertyId then
          (if env.sysAllocOk = true then VT_BSTR else VT_EMPTY)
        else VT_EMPTY := by
  have hg := ensureValidHwnd_live env self hlive
  have hf := failed_ok
  unfold GetPropertyValue
  have hne : ∀ s : String, (some s ≠ none) = True := fun s => eq_true (Option.some_ne_none s)
  have hnn : ((none : Option String) ≠ none) = False := eq_false (fun h => h rfl)
  cases ha : env.sysAllocOk
  · have hs : ∀ s, SysAllocString env s = none := by
      intro s; rw [sysAllocString_eq, ha]; rfl
    simp only [hg, hf, Bool.false_eq_true, if_false, hs, hnn]
    split_ifs <;> rfl
  · have hs : ∀ s, SysAllocString env s = some s := by
      intro s; rw [sysAllocString_eq, ha]; rfl
    simp only [hg, hf, Bool.false_eq_true, if_false, hs, hne, if_true]
    split_ifs <;> rfl

theorem vt_i4_ne_empty : VT_I4 ≠ VT_EMPTY := by decide

theorem vt_bstr_ne_empty : VT_BSTR ≠ VT_EMPTY := by decide

theorem vt_bool_ne_empty : VT_BOOL ≠ VT_EMPTY := by decide

/-- C11: with a live window, GetPropertyValue returns success for every
property id and every string-allocation outcome; its result is the empty
variant exactly when the property id is not one of the six recognised ids, or
the id is string-valued (automation id, provider description) and the string
allocation failed. -/
theorem C11_GetPropertyValue_never_fails (env : Env) (self : WindowUiaProvider)
    (id : PROPERTYID) (prior : VARIANT)
    (hlive : env.IsWindow (_GetWindowHandle self) = true) :
    (GetPropertyValue env self id prior).hr = S_OK ∧
    ((GetPropertyValue env self id prior).out.vt = VT_EMPTY ↔
      (¬ recognisedProperty id ∨ (stringValuedProperty id ∧ env.sysAllocOk = false))) := by
  refine ⟨getPropertyValue_hr_live env self id prior hlive, ?_⟩
  rw [getPropertyValue_vt_live env self id prior hlive]
  by_cases h1 : id = UIA_ControlTypePropertyId
  · have n2 : id ≠ UIA_AutomationIdPropertyId := by rw [h1]; decide
    have n6 : id ≠ UIA_ProviderDescriptionPropertyId := by rw [h1]; decide
    rw [if_pos h1]
    constructor
    · intro h; exact absurd h vt_i4_ne_empty
    · rintro (h | ⟨h | h, _⟩)
      · exact absurd (Or.inl h1) h
      · exact absurd h n2
      · exact absurd h n6
  by_cases h2 : id = UIA_AutomationIdPropertyId
  · rw [if_neg h1, if_pos h2]
    cases ha : env.sysAllocOk
    · rw [if_neg (by decide)]
      exact ⟨fun _ => Or.inr ⟨Or.inl h2, rfl⟩, fun _ => rfl⟩
    · rw [if_pos rfl]
      constructor
      · intro h; exact absurd h vt_bstr_ne_empty
      · rintro (h | ⟨_, h⟩)
        · exact absurd (Or.inr (Or.inl h2)) h
        · exact absurd h (by decide)
  by_cases h3 : id = UIA_IsControlElementPropertyId
  · have n6 : id ≠ UIA_ProviderDescriptionPropertyId := by rw [h3]; decide
    rw [if_neg h1, if_neg h2, if_pos h3]
    constructor
    · intro h; exact absurd h vt_bool_ne_empty
    · rintro (h | ⟨h | h, _⟩)
      · exact absurd (Or.inr (Or.inr (Or.inl h3))) h
      · exact absurd h h2
      · exact absurd h n6
  by_cases h4 : id = UIA_IsKeyboardFocusablePropertyId
  · have n6 : id ≠ UIA_ProviderDescriptionPropertyId := by rw [h4]; decide
    rw [if_neg h1, if_neg h2, if_neg h3, if_pos h4]
    constructor
    · intro h; exact absurd h vt_bool_ne_empty
    · rintro (h | ⟨h | h, _⟩)
      · exact absurd (Or.inr (Or.inr (Or.inr (Or.inl h4)))) h
      · exact absurd h h2
      · exact absurd h n6
  by_cases h5 : id = UIA_HasKeyboardFocusPropertyId
  · have n6 : id ≠ UIA_ProviderDescriptionPropertyId := by rw [h5]; decide
    rw [if_neg h1, if_neg h2, if_neg h3, if_neg h4, if_pos h5]
    constructor
    · intro h; exact absurd h vt_bool_ne_empty
    · rintro (h | ⟨h | h, _⟩)
      · exact absurd (Or.inr (Or.inr (Or.inr (Or.inr (Or.inl h5))))) h
      · exact absurd h h2
      · exact absurd h n6
  by_cases h6 : id = UIA_ProviderDescriptionPropertyId
  · rw [if_neg h1, if_neg h2, if_neg h3, if_neg h4, if_neg h5, if_pos h6]
    cases ha : env.sysAllocOk
    · rw [if_neg (by decide)]
      exact ⟨fun _ => Or.inr ⟨Or.inr h6, rfl⟩, fun _ => rfl⟩
    · rw [if_pos rfl]
      constructor
      · intro h; exact absurd h vt_bstr_ne_empty
      · rintro (h | ⟨_, h⟩)
        · exact absurd (Or.inr (Or.inr (Or.inr (Or.inr (Or.inr h6))))) h
        · exact absurd h (by decide)
  · rw [if_neg h1, if_neg h2, if_neg h3, if_neg h4, if_neg h5, if_neg h6]
    refine ⟨fun _ => Or.inl ?_, fun _ => rfl⟩
    rintro (h | h | h | h | h | h)
    · exact h1 h
    · exact h2 h
    · exact h3 h
    · exact h4 h
    · exact h5 h
    · exact h6 h

/-- C11, witness: on the sample root with memory exhausted the automation id
comes back empty and the call still succeeds. -/
theorem C11_GetPropertyValue_never_fails_witness :
    liveEnvNoMemory.IsWindow (_GetWindowHandle sampleRoot) = true ∧
    (GetPropertyValue liveEnvNoMemory sampleRoot UIA_AutomationIdPropertyId
        ⟨VT_I4, Payload.lVal 12⟩).hr = S_OK ∧
    (GetPropertyValue liveEnvNoMemory sampleRoot UIA_AutomationIdPropertyId
        ⟨VT_I4, Payload.lVal 12⟩).out.vt = VT_EMPTY :=
  have h := C11_GetPropertyValue_never_fails liveEnvNoMemory sampleRoot
    UIA_AutomationIdPropertyId ⟨VT_I4, Payload.lVal 12⟩ (by decide)
  ⟨by decide, h.1, h.2.2 (Or.inr ⟨Or.inl rfl, rfl⟩)⟩

/-! ## C12: the output location on the failure path -/

theorem ok_ne_elementNotAvailable : S_OK ≠ UIA_E_ELEMENTNOTAVAILABLE := by decide

theorem outOfMemory_ne_elementNotAvailable : E_OUTOFMEMORY ≠ UIA_E_ELEMENTNOTAVAILABLE := by
  decide

theorem navigate_hr_live (env : Env) (self : WindowUiaProvider) (heap : Heap)
    (d : NavigateDirection) (prior : Pointer)
    (hlive : env.IsWindow (_GetWindowHandle self) = true) :
    (Navigate env self heap d prior).1.hr = S_OK ∨
    (Navigate env self heap d prior).1.hr = E_OUTOFMEMORY := by
  have hg := ensureValidHwnd_live env self hlive
  have hf := failed_ok
  unfold Navigate
  simp only [hg, hf, Bool.false_eq_true, if_false]
  split_ifs
  · exact Or.inr rfl
  · exact Or.inl rfl
  · exact Or.inl rfl

theorem elementProviderFromPoint_hr_live (env : Env) (self : WindowUiaProvider) (heap : Heap)
    (x y : Float) (prior : Pointer)
    (hlive : env.IsWindow (_GetWindowHandle self) = true) :
    (ElementProviderFromPoint env self heap x y prior).1.hr = S_OK ∨
    (ElementProviderFromPoint env self heap x y prior).1.hr = E_OUTOFMEMORY := by
  have hg := ensureValidHwnd_live env self hlive
  have hf := failed_ok
  unfold ElementProviderFromPoint
  simp only [hg, hf, Bool.false_eq_true, if_false]
  split_ifs
  · exact Or.inr rfl
  · exact Or.inl rfl

/-- C12 (amended): whenever get_ProviderOptions, GetPatternProvider,
GetPropertyValue, Navigate, GetRuntimeId, get_BoundingRectangle,
GetEmbeddedFragmentRoots, get_FragmentRoot, ElementProviderFromPoint or
GetFocus returns element-not-available, it has not written to its output
parameter: the parameter holds after the call the value it held before. -/
theorem C12_output_untouched (env : Env) (self : WindowUiaProvider) (heap : Heap) :
    (∀ o, (get_ProviderOptions env self o).hr = UIA_E_ELEMENTNOTAVAILABLE →
      (get_ProviderOptions env self o).out = o) ∧
    (∀ id o, (GetPatternProvider env self id o).hr = UIA_E_ELEMENTNOTAVAILABLE →
      (GetPatternProvider env self id o).out = o) ∧
    (∀ id o, (GetPropertyValue env self id o).hr = UIA_E_ELEMENTNOTAVAILABLE →
      (GetPropertyValue env self id o).out = o) ∧
    (∀ d o, (Navigate env self heap d o).1.hr = UIA_E_ELEMENTNOTAVAILABLE →
      (Navigate env self heap d o).1.out = o) ∧
    (∀ o, (GetRuntimeId env self o).hr = UIA_E_ELEMENTNOTAVAILABLE →
      (GetRuntimeId env self o).out = o) ∧
    (∀ o, (get_BoundingRectangle env self o).hr = UIA_E_ELEMENTNOTAVAILABLE →
      (get_BoundingRectangle env self o).out = o) ∧
    (∀ o, (GetEmbeddedFragmentRoots env self o).hr = UIA_E_ELEMENTNOTAVAILABLE →
      (GetEmbeddedFragmentRoots env self o).out = o) ∧
    (∀ o, (get_FragmentRoot env self o).hr = UIA_E_ELEMENTNOTAVAILABLE →
      (get_FragmentRoot env self o).out = o) ∧
    (∀ x y o, (ElementProviderFromPoint env self heap x y o).1.hr
        = UIA_E_ELEMENTNOTAVAILABLE →
      (ElementProviderFromPoint env self heap x y o).1.out = o) ∧
    (∀ o, (GetFocus env self o).hr = UIA_E_ELEMENTNOTAVAILABLE →
      (GetFocus env self o).out = o) := by
  have hne := ok_ne_elementNotAvailable
  have hne2 := outOfMemory_ne_elementNotAvailable
  cases hw : env.IsWindow (_GetWindowHandle self) with
  | false =>
    have hg := ensureValidHwnd_dead env self hw
    have hf := failed_elementNotAvailable
    refine ⟨?_, ?_, ?_, ?_, ?_, ?_, ?_, ?_, ?_, ?_⟩
    · intro o _; simp [get_ProviderOptions, hg, hf]
    · intro id o _; simp [GetPatternProvider, hg, hf]
    · intro id o _; simp [GetPropertyValue, hg, hf]
    · intro d o _; simp [Navigate, hg, hf]
    · intro o _; simp [GetRuntimeId, hg, hf]
    · intro o _; simp [get_BoundingRectangle, hg, hf]
    · intro o _; simp [GetEmbeddedFragmentRoots, hg, hf]
    · intro o _; simp [get_FragmentRoot, hg, hf]
    · intro x y o _; simp [ElementProviderFromPoint, hg, hf]
    · intro o _; simp [GetFocus, hg, hf]
  | true =>
    have hg := ensureValidHwnd_live env self hw
    have hf := failed_ok
    refine ⟨?_, ?_, ?_, ?_, ?_, ?_, ?_, ?_, ?_, ?_⟩
    · intro o h
      have : (get_ProviderOptions env self o).hr = S_OK := by
        simp [get_ProviderOptions, hg, hf]
      exact absurd (this.symm.trans h) hne
    · intro id o h
      have : (GetPatternProvider env self id o).hr = S_OK := by
        simp [GetPatternProvider, hg, hf]
      exact absurd (this.symm.trans h) hne
    · intro id o h
      have := getPropertyValue_hr_live env self id o hw
      exact absurd (this.symm.trans h) hne
    · intro d o h
      rcases navigate_hr_live env self heap d o hw with h1 | h1
      · exact absurd (h1.symm.trans h) hne
      · exact absurd (h1.symm.trans h) hne2
    · intro o h
      have : (GetRuntimeId env self o).hr = S_OK := by
        simp [GetRuntimeId, hg, hf]
      exact absurd (this.symm.trans h) hne
    · intro o h
      cases hp : self._pWindow with
      | none => simp [get_BoundingRectangle, hg, hf, hp]
      | some w =>
        have : (get_BoundingRectangle env self o).hr = S_OK := by
          simp [get_BoundingRectangle, hg, hf, hp]
        exact absurd (this.symm.trans h) hne
    · intro o h
      have : (GetEmbeddedFragmentRoots env self o).hr = S_OK := by
        simp [GetEmbeddedFragmentRoots, hg, hf]
      exact absurd (this.symm.trans h) hne
    · intro o h
      have : (get_FragmentRoot env self o).hr = S_OK := by
        simp [get_FragmentRoot, hg, hf]
      exact absurd (this.symm.trans h) hne
    · intro x y o h
      rcases elementProviderFromPoint_hr_live env self heap x y o hw with h1 | h1
      · exact absurd (h1.symm.trans h) hne
      · exact absurd (h1.symm.trans h) hne2
    · intro o h
      have : (GetFocus env self o).hr = S_OK := by
        simp [GetFocus, hg, hf]
      exact absurd (this.symm.trans h) hne

/-- C12, witness: the focus query on the destroyed window leaves the caller's
pointer where it was. -/
theorem C12_output_untouched_witness :
    (GetFocus deadEnv sampleRoot (Pointer.foreign 3)).hr = UIA_E_ELEMENTNOTAVAILABLE ∧
    (GetFocus deadEnv sampleRoot (Pointer.foreign 3)).out = Pointer.foreign 3 :=
  ⟨by decide,
   (C12_output_untouched deadEnv sampleRoot []).2.2.2.2.2.2.2.2.2 (Pointer.foreign 3)
     (by decide)⟩

/-- C12, counterexample: on the destroyed window Navigate, GetFocus,
get_ProviderOptions and get_BoundingRectangle return element-not-available
and the output location still holds the caller's non-default value. -/
theorem C12_counterexample :
    (Navigate deadEnv sampleRoot [] NavigateDirection.FirstChild (Pointer.foreign 3)).1.hr
      = UIA_E_ELEMENTNOTAVAILABLE ∧
    (Navigate deadEnv sampleRoot [] NavigateDirection.FirstChild (Pointer.foreign 3)).1.out
      ≠ Pointer.null ∧
    (GetFocus deadEnv sampleRoot (Pointer.foreign 3)).hr = UIA_E_ELEMENTNOTAVAILABLE ∧
    (GetFocus deadEnv sampleRoot (Pointer.foreign 3)).out ≠ Pointer.null ∧
    (get_ProviderOptions deadEnv sampleRoot 7).hr = UIA_E_ELEMENTNOTAVAILABLE ∧
    (get_ProviderOptions deadEnv sampleRoot 7).out ≠ 0 ∧
    (get_BoundingRectangle deadEnv sampleRoot ⟨1, 2, 3, 4⟩).hr = UIA_E_ELEMENTNOTAVAILABLE ∧
    (get_BoundingRectangle deadEnv sampleRoot ⟨1, 2, 3, 4⟩).out ≠ ⟨0, 0, 0, 0⟩ := by
  decide

/-! ## C14: the constant answers on a live window -/

/-- C14: with a live window, GetRuntimeId, GetEmbeddedFragmentRoots and
GetFocus each return success with a null result, GetPatternProvider returns
success with a null result for every pattern id, get_ProviderOptions returns
success with the server-side-provider option, and SetFocus returns success. -/
theorem C14_constant_answers (env : Env) (self : WindowUiaProvider)
    (hlive : env.IsWindow (_GetWindowHandle self) = true) :
    (∀ o, (GetRuntimeId env self o).hr = S_OK ∧
      (GetRuntimeId env self o).out = Pointer.null) ∧
    (∀ o, (GetEmbeddedFragmentRoots env self o).hr = S_OK ∧
      (GetEmbeddedFragmentRoots env self o).out = Pointer.null) ∧
    (∀ o, (GetFocus env self o).hr = S_OK ∧ (GetFocus env self o).out = Pointer.null) ∧
    (∀ id o, (GetPatternProvider env self id o).hr = S_OK ∧
      (GetPatternProvider env self id o).out = Pointer.null) ∧
    (∀ o, (get_ProviderOptions env self o).hr = S_OK ∧
      (get_ProviderOptions env self o).out = ProviderOptions_ServerSideProvider) ∧
    (SetFocus env self).hr = S_OK := by
  have hg := ensureValidHwnd_live env self hlive
  have hf := failed_ok
  refine ⟨?_, ?_, ?_, ?_, ?_, ?_⟩
  · intro o; simp [GetRuntimeId, hg, hf]
  · intro o; simp [GetEmbeddedFragmentRoots, hg, hf]
  · intro o; simp [GetFocus, hg, hf]
  · intro id o; simp [GetPatternProvider, hg, hf]
  · intro o; simp [get_ProviderOptions, hg, hf]
  · simp [SetFocus, hg, hf]

/-- C14, witness: the sample root on the live platform. -/
theorem C14_constant_answers_witness :
    liveEnv.IsWindow (_GetWindowHandle sampleRoot) = true ∧
    (GetRuntimeId liveEnv sampleRoot (Pointer.foreign 3)).out = Pointer.null ∧
    (get_ProviderOptions liveEnv sampleRoot 0).out = ProviderOptions_ServerSideProvider ∧
    (SetFocus liveEnv sampleRoot).hr = S_OK :=
  have h := C14_constant_answers liveEnv sampleRoot (by decide)
  ⟨by decide, (h.1 (Pointer.foreign 3)).2, (h.2.2.2.2.1 0).2, h.2.2.2.2.2⟩

/-! ## C15: the root keeps no state besides its reference count -/

theorem navigate_self (env : Env) (self : WindowUiaProvider) (heap : Heap)
    (d : NavigateDirection) (prior : Pointer) :
    (Navigate env self heap d prior).1.self = self := by
  unfold Navigate
  simp only
  split_ifs <;> rfl

theorem navigate_child_live (env : Env) (self : WindowUiaProvider) (w : Window) (heap : Heap)
    (d : NavigateDirection) (prior : Pointer)
    (hw : self._pWindow = some w)
    (hd : d = NavigateDirection.FirstChild ∨ d = NavigateDirection.LastChild)
    (hlive : env.IsWindow w.GetWindowHandle = true) (hnew : env.newOk = true) :
    Navigate env self heap d prior
      = ({ hr := S_OK, out := Pointer.leaf heap.length, self := self },
         heap ++ [⟨w, w.GetScreenInfo⟩]) := by
  obtain ⟨pw, n⟩ := self
  have hw0 : pw = some w := hw
  subst hw0
  have hg := ensureValidHwnd_window env w n hlive
  have hf := failed_ok
  have hp := getScreenInfoProvider_ok env w n heap hnew
  simp [Navigate, hg, hf, hd, hp]

/-- C15: for every input and window state, every operation other than AddRef,
Release, QueryInterface and get_FragmentRoot leaves the object, its reference
count and window back-reference included, as it was; QueryInterface and
get_FragmentRoot leave the back-reference as it was.  Nothing of a leaf is
kept in the root: of two successive child navigations on a live window with
successful allocations, each constructs its own leaf at its own address. -/
theorem C15_frame (env env2 : Env) (self : WindowUiaProvider) (heap : Heap) :
    (∀ o, (get_ProviderOptions env self o).self = self) ∧
    (∀ id o, (GetPatternProvider env self id o).self = self) ∧
    (∀ id o, (GetPropertyValue env self id o).self = self) ∧
    (∀ o, (get_HostRawElementProvider env self o).self = self) ∧
    (∀ d o, (Navigate env self heap d o).1.self = self) ∧
    (∀ o, (GetRuntimeId env self o).self = self) ∧
    (∀ o, (get_BoundingRectangle env self o).self = self) ∧
    (∀ o, (GetEmbeddedFragmentRoots env self o).self = self) ∧
    (SetFocus env self).self = self ∧
    (∀ x y o, (ElementProviderFromPoint env self heap x y o).1.self = self) ∧
    (∀ o, (GetFocus env self o).self = self) ∧
    (∀ riid o, (QueryInterface self riid o).self._pWindow = self._pWindow) ∧
    (∀ o, (get_FragmentRoot env self o).self._pWindow = self._pWindow) ∧
    (∀ w d1 d2 o1 o2, self._pWindow = some w →
      d1 = NavigateDirection.FirstChild ∨ d1 = NavigateDirection.LastChild →
      d2 = NavigateDirection.FirstChild ∨ d2 = NavigateDirection.LastChild →
      env.IsWindow w.GetWindowHandle = true → env.newOk = true →
      env2.IsWindow w.GetWindowHandle = true → env2.newOk = true →
      (Navigate env self heap d1 o1).1.out = Pointer.leaf heap.length ∧
      (Navigate env2 (Navigate env self heap d1 o1).1.self
          (Navigate env self heap d1 o1).2 d2 o2).1.out = Pointer.leaf (heap.length + 1) ∧
      (Navigate env2 (Navigate env self heap d1 o1).1.self
          (Navigate env self heap d1 o1).2 d2 o2).1.out
        ≠ (Navigate env self heap d1 o1).1.out ∧
      (Navigate env2 (Navigate env self heap d1 o1).1.self
          (Navigate env self heap d1 o1).2 d2 o2).2
        = heap ++ [⟨w, w.GetScreenInfo⟩] ++ [⟨w, w.GetScreenInfo⟩]) := by
  refine ⟨?_, ?_, ?_, ?_, ?_, ?_, ?_, ?_, ?_, ?_, ?_, ?_, ?_, ?_⟩
  · intro o; unfold get_ProviderOptions; simp only; split_ifs <;> rfl
  · intro id o; unfold GetPatternProvider; simp only; split_ifs <;> rfl
  · intro id o; unfold GetPropertyValue; simp only; split_ifs <;> rfl
  · intro o
    unfold get_HostRawElementProvider
    cases self._pWindow with
    | none => rfl
    | some w => simp only; split_ifs <;> rfl
  · intro d o; exact navigate_self env self heap d o
  · intro o; unfold GetRuntimeId; simp only; split_ifs <;> rfl
  · intro o
    unfold get_BoundingRectangle
    cases self._pWindow with
    | none => simp only; split_ifs <;> rfl
    | some w => simp only; split_ifs <;> rfl
  · intro o; unfold GetEmbeddedFragmentRoots; simp only; split_ifs <;> rfl
  · unfold SetFocus; simp only; split_ifs <;> rfl
  · intro x y o; unfold ElementProviderFromPoint; simp only; split_ifs <;> rfl
  · intro o; unfold GetFocus; simp only; split_ifs <;> rfl
  · intro riid o
    rcases queryInterface_cases self riid o with ⟨_, h⟩ | ⟨_, h⟩
    · rw [h]; rfl
    · rw [h]
  · intro o
    rcases get_FragmentRoot_cases env self o with ⟨_, h⟩ | ⟨_, h⟩
    · rw [h]; rfl
    · rw [h]
  · intro w d1 d2 o1 o2 hw hd1 hd2 hl1 hn1 hl2 hn2
    rw [navigate_child_live env self w heap d1 o1 hw hd1 hl1 hn1]
    simp only
    rw [navigate_child_live env2 self w _ d2 o2 hw hd2 hl2 hn2]
    simp

/-- C15, witness: two successive child navigations on the sample root return
the leaves at addresses 0 and 1 and leave the root as constructed. -/
theorem C15_frame_witness :
    (Navigate liveEnv sampleRoot [] NavigateDirection.FirstChild Pointer.null).1.self
      = sampleRoot ∧
    (Navigate liveEnv sampleRoot [] NavigateDirection.FirstChild Pointer.null).1.out
      = Pointer.leaf 0 ∧
    (Navigate liveEnv
        (Navigate liveEnv sampleRoot [] NavigateDirection.FirstChild Pointer.null).1.self
        (Navigate liveEnv sampleRoot [] NavigateDirection.FirstChild Pointer.null).2
        NavigateDirection.LastChild Pointer.null).1.out = Pointer.leaf 1 :=
  have h := C15_frame liveEnv liveEnv sampleRoot []
  have k := h.2.2.2.2.2.2.2.2.2.2.2.2.2 sampleWindow NavigateDirection.FirstChild
    NavigateDirection.LastChild Pointer.null Pointer.null rfl (Or.inl rfl) (Or.inr rfl)
    (by decide) rfl (by decide) rfl
  ⟨h.2.2.2.2.1 NavigateDirection.FirstChild Pointer.null, k.1, k.2.1⟩

/-! ## C16: the window pointer behind the validity gate -/

/-- C16: if the window back-reference is null, get_BoundingRectangle returns
element-not-available.  Assuming the null handle is never a live window,
whenever the validity gate passes the back-reference is non-null, so
get_BoundingRectangle does not leave through its own null check (it returns
success) and _GetScreenInfoProvider returns null only when the allocation
failed, never for lack of a window. -/
theorem C16_window_pointer (env : Env) (self : WindowUiaProvider) :
    (self._pWindow = none →
      ∀ o, (get_BoundingRectangle env self o).hr = UIA_E_ELEMENTNOTAVAILABLE) ∧
    (env.IsWindow nullHWND = false → _EnsureValidHwnd env self = S_OK →
      self._pWindow ≠ none ∧
      (∀ o, (get_BoundingRectangle env self o).hr = S_OK) ∧
      (∀ heap, (_GetScreenInfoProvider env self heap).1 = Pointer.null ↔
        env.newOk = false)) := by
  obtain ⟨pw, n⟩ := self
  constructor
  · intro hp o
    have hp0 : pw = none := hp
    subst hp0
    cases hnw : env.IsWindow (_GetWindowHandle ⟨none, n⟩) with
    | false =>
      have hg := ensureValidHwnd_dead env ⟨none, n⟩ hnw
      simp [get_BoundingRectangle, hg, failed_elementNotAvailable]
    | true =>
      have hg := ensureValidHwnd_live env ⟨none, n⟩ hnw
      simp [get_BoundingRectangle, hg, failed_ok]
  · intro hnull hgate
    cases pw with
    | none =>
      have hd : _EnsureValidHwnd env ⟨none, n⟩ = UIA_E_ELEMENTNOTAVAILABLE :=
        ensureValidHwnd_dead env ⟨none, n⟩ hnull
      rw [hd] at hgate
      exact absurd hgate elementNotAvailable_ne_ok
    | some w =>
      have hf := failed_ok
      refine ⟨fun h => Option.noConfusion h, ?_, ?_⟩
      · intro o
        simp [get_BoundingRectangle, hgate, hf]
      · intro heap
        cases hn : env.newOk
        · simp [_GetScreenInfoProvider, newScreenInfoUiaProvider, hn]
        · simp [_GetScreenInfoProvider, newScreenInfoUiaProvider, hn]

/-- C16, witness: the orphan root fails; the sample root passes the gate on a
platform where the null handle is not a window, and then has its window. -/
theorem C16_window_pointer_witness :
    (get_BoundingRectangle liveEnv orphanRoot ⟨0, 0, 0, 0⟩).hr = UIA_E_ELEMENTNOTAVAILABLE ∧
    liveEnv.IsWindow nullHWND = false ∧ _EnsureValidHwnd liveEnv sampleRoot = S_OK ∧
    sampleRoot._pWindow ≠ none ∧
    (get_BoundingRectangle liveEnv sampleRoot ⟨0, 0, 0, 0⟩).hr = S_OK :=
  have h := (C16_window_pointer liveEnv sampleRoot).2 (by decide) (by decide)
  ⟨(C16_window_pointer liveEnv orphanRoot).1 rfl ⟨0, 0, 0, 0⟩, by decide, by decide,
   h.1, h.2.1 ⟨0, 0, 0, 0⟩⟩

end WindowUia
